import Mathlib

/-!
Action resolution of `cli/cmd/connect/kubeconfig.go`.

A shallow embedding of the `connect` package of porter: the orchestrator
`Kubeconfig`, the five file-backed resolvers, and the GCP key resolver with
its automatic and manual paths.

The code talks to the outside through collaborators that are not part of the
package (file system, terminal prompt, the porter API client, the GCP agent).
They are gathered in a `World`: every collaborator is a function of a hidden
state `σ`, so a collaborator may answer differently each time it is called.
Every call is appended to a trace, which is how the theorems speak about the
calls a run makes.
-/

namespace Connect

/-! ## Values -/

/-- A Go byte slice (`[]byte`). -/
abbrev Bytes := List UInt8

/-- The conversion `string(b)` of a byte slice. A Go string is a sequence of
bytes; it is represented by the string that has one character per byte. -/
def goString (b : Bytes) : String :=
  String.mk (b.map (fun x => Char.ofNat x.toNat))

/-- The function `strings.ToLower`, on its ASCII part: no character outside
ASCII is mapped to `y`, `e` or `s`, so the comparisons against `"y"` and
`"yes"` made by the code are decided by this part alone. -/
def strings_ToLower (s : String) : String :=
  String.mk (s.data.map Char.toLower)

/-- The alphabet of `base64.StdEncoding`. -/
def encodeStd : List Char :=
  "ABCDEFGHIJKLMNOPQRSTUVWXYZabcdefghijklmnopqrstuvwxyz0123456789+/".data

/-- The character of a six-bit group. -/
def base64Char (n : Nat) : Char :=
  encodeStd.getD n 'A'

/-- The characters of the padded standard base64 encoding of a byte list. -/
def base64Chars : List Nat → List Char
  | [] => []
  | [a] => [base64Char (a / 4), base64Char (a % 4 * 16), '=', '=']
  | [a, b] =>
    [base64Char (a / 4), base64Char (a % 4 * 16 + b / 16), base64Char (b % 16 * 4), '=']
  | a :: b :: c :: rest =>
    base64Char (a / 4) :: base64Char (a % 4 * 16 + b / 16) ::
      base64Char (b % 16 * 4 + c / 64) :: base64Char (c % 64) :: base64Chars rest

/-- The function `base64.StdEncoding.EncodeToString`. -/
def base64_StdEncoding_EncodeToString (src : Bytes) : String :=
  String.mk (base64Chars (src.map UInt8.toNat))

/-- An error value handed back by a collaborator. `notExist` is what
`os.IsNotExist` answers on it. -/
structure CollabError where
  msg : String
  notExist : Bool
deriving DecidableEq, Repr

/-- The Go `error` values that `Kubeconfig` and the resolvers can return. Go
compares errors by identity, so the two errors created in this package are
constructors of their own, distinct from everything a collaborator returns. -/
inductive GoError where
  /-- The value of `fmt.Errorf("no project set, ...")` in `Kubeconfig`. -/
  | noProjectSet
  /-- The value of `errors.New("Key file not found")` in `resolveGCPKeyActionManual`. -/
  | keyFileNotFound
  /-- An error received from a collaborator and returned as it is. -/
  | collab (e : CollabError)
deriving DecidableEq, Repr

/-- The method `Error()` of an error value. -/
def GoError.Error : GoError → String
  | .noProjectSet => "no project set, please run porter project set [id]"
  | .keyFileNotFound => "Key file not found"
  | .collab e => e.msg

/-- How a function call ends: with a value (`err == nil`), with a returned error,
or with a run-time panic. -/
inductive Outcome (α : Type) where
  | ok (a : α)
  | error (err : GoError)
  | panic
deriving DecidableEq, Repr

/-- The `Name` of an action. In Go it is a string compared against the seven
constants of `internal/models`; `other` stands for every string that is none
of the seven. -/
inductive ActionName where
  | ClusterCADataAction
  | ClientCertDataAction
  | ClientKeyDataAction
  | OIDCIssuerDataAction
  | TokenDataAction
  | GCPKeyDataAction
  | AWSKeyDataAction
  | other (tag : String)
deriving DecidableEq, Repr

/-- The struct `models.ServiceAccountAllActions`, with the fields the package
writes. A Go composite literal leaves the fields it does not name empty. -/
structure ServiceAccountAllActions where
  Name : ActionName
  ClusterCAData : String := ""
  ClientCertData : String := ""
  ClientKeyData : String := ""
  OIDCIssuerCAData : String := ""
  TokenData : String := ""
  GCPKeyData : String := ""
deriving DecidableEq, Repr

/-- One action of a candidate, as `Kubeconfig` reads it. -/
structure ServiceAccountAction where
  Name : ActionName
  Filename : String
deriving DecidableEq, Repr

/-- One element of the answer of `CreateProjectCandidates`. -/
structure ServiceAccountCandidate where
  ID : Nat
  ClusterName : String
  ClusterEndpoint : String
  Actions : List ServiceAccountAction
deriving DecidableEq, Repr

/-- A cluster listed in the answer of `CreateProjectServiceAccount`. -/
structure Cluster where
  Name : String
deriving DecidableEq, Repr

/-- The answer of `CreateProjectServiceAccount`. -/
structure ServiceAccount where
  ID : Nat
  Clusters : List Cluster
deriving DecidableEq, Repr

/-- The value of type `gcpLocal.Agent`: its field `ProjectID`, which the code
assigns, and a handle for the rest. -/
structure Agent where
  handle : Nat
  ProjectID : String
deriving DecidableEq, Repr

/-- What `os.Stat` reports about a file. -/
structure FileInfo where
  IsDir : Bool
deriving DecidableEq, Repr

/-! ## Collaborators and traces -/

/-- A call to a collaborator, with its arguments. -/
inductive Event where
  | GetKubeconfigFromHost (kubeconfigPath : String) (contexts : List String)
  | NewClient (baseURL cookieFile : String)
  | CreateProjectCandidates (projectID : Nat) (kubeconfig : String)
  | CreateProjectServiceAccount (projectID candidateID : Nat)
      (resolvers : List ServiceAccountAllActions)
  | ReadFile (filename : String)
  | Stat (name : String)
  | PromptPlaintext (prompt : String)
  | NewDefaultAgent
  | GetProjectIDForGKECluster (endpoint : String)
  | StringWithCharset (length : Nat) (charset : String)
  | CreateServiceAccount (agent : Agent) (name : String)
  | SetServiceAccountIAMPolicy (agent : Agent) (resp : Nat)
  | CreateServiceAccountKey (agent : Agent) (resp : Nat)
  | Print (text : String)
deriving DecidableEq, Repr

/-- The collaborators of the package. Each one reads and updates a hidden state
of type `σ`. The api client and the service account returned by the agent are
handles (numbers) whose meaning lives in the hidden state. -/
structure World (σ : Type) where
  /-- The function `local.GetKubeconfigFromHost`. -/
  GetKubeconfigFromHost : σ → String → List String → Except CollabError Bytes × σ
  /-- The function `api.NewClient`. -/
  NewClient : σ → String → String → Nat × σ
  /-- The remote analysis, `client.CreateProjectCandidates`. -/
  CreateProjectCandidates :
    σ → Nat → Nat → String → Except CollabError (List ServiceAccountCandidate) × σ
  /-- The remote finalize call, `client.CreateProjectServiceAccount`. -/
  CreateProjectServiceAccount :
    σ → Nat → Nat → Nat → List ServiceAccountAllActions → Except CollabError ServiceAccount × σ
  /-- The function `ioutil.ReadFile`. -/
  ReadFile : σ → String → Except CollabError Bytes × σ
  /-- The function `os.Stat`; with an error it returns a nil `FileInfo`. -/
  Stat : σ → String → Except CollabError FileInfo × σ
  /-- The function `utils.PromptPlaintext`. -/
  PromptPlaintext : σ → String → Except CollabError String × σ
  /-- The function `gcpLocal.NewDefaultAgent`. Its agent result is nil (`none`)
  when the construction fails; the code drops its error result
  (`agent, _ := ...`). -/
  NewDefaultAgent : σ → Option Agent × σ
  /-- The method `agent.GetProjectIDForGKECluster`. The code calls it through an
  agent that may be nil, so besides a value or an error the call may end in a
  panic, which is the result `none`. -/
  GetProjectIDForGKECluster :
    σ → Option Agent → String → Option (Except CollabError String) × σ
  /-- The function `utils.StringWithCharset`. -/
  StringWithCharset : σ → Nat → String → String × σ
  /-- The method `agent.CreateServiceAccount`. -/
  CreateServiceAccount : σ → Agent → String → Except CollabError Nat × σ
  /-- The method `agent.SetServiceAccountIAMPolicy`. -/
  SetServiceAccountIAMPolicy : σ → Agent → Nat → Except CollabError Unit × σ
  /-- The method `agent.CreateServiceAccountKey`. -/
  CreateServiceAccountKey : σ → Agent → Nat → Except CollabError Bytes × σ

/-- The state of a run: the hidden state of the collaborators and the calls
made so far, oldest first. -/
structure St (σ : Type) where
  world : σ
  trace : List Event

variable {σ : Type}

/-- Record a call. -/
def St.log (s : St σ) (w : σ) (e : Event) : St σ :=
  St.mk w (s.trace ++ [e])

/-- A call of `ioutil.ReadFile`. -/
def ioutil_ReadFile (W : World σ) (filename : String) (s : St σ) :
    Except CollabError Bytes × St σ :=
  ((W.ReadFile s.world filename).1,
    s.log (W.ReadFile s.world filename).2 (Event.ReadFile filename))

/-! ## The file-backed resolvers -/

/-- Resolves a cluster ca data action. -/
def resolveClusterCAAction (W : World σ) (filename : String) (s : St σ) :
    Outcome ServiceAccountAllActions × St σ :=
  match ioutil_ReadFile W filename s with
  | (.error err, s1) => (.error (.collab err), s1)
  | (.ok fileBytes, s1) =>
    (.ok { Name := .ClusterCADataAction,
           ClusterCAData := base64_StdEncoding_EncodeToString fileBytes }, s1)

/-- Resolves a client cert data action. -/
def resolveClientCertAction (W : World σ) (filename : String) (s : St σ) :
    Outcome ServiceAccountAllActions × St σ :=
  match ioutil_ReadFile W filename s with
  | (.error err, s1) => (.error (.collab err), s1)
  | (.ok fileBytes, s1) =>
    (.ok { Name := .ClientCertDataAction,
           ClientCertData := base64_StdEncoding_EncodeToString fileBytes }, s1)

/-- Resolves a client key data action. -/
def resolveClientKeyAction (W : World σ) (filename : String) (s : St σ) :
    Outcome ServiceAccountAllActions × St σ :=
  match ioutil_ReadFile W filename s with
  | (.error err, s1) => (.error (.collab err), s1)
  | (.ok fileBytes, s1) =>
    (.ok { Name := .ClientKeyDataAction,
           ClientKeyData := base64_StdEncoding_EncodeToString fileBytes }, s1)

/-- Resolves an oidc issuer data action. -/
def resolveOIDCIssuerAction (W : World σ) (filename : String) (s : St σ) :
    Outcome ServiceAccountAllActions × St σ :=
  match ioutil_ReadFile W filename s with
  | (.error err, s1) => (.error (.collab err), s1)
  | (.ok fileBytes, s1) =>
    (.ok { Name := .OIDCIssuerDataAction,
           OIDCIssuerCAData := base64_StdEncoding_EncodeToString fileBytes }, s1)

/-- Resolves a token data action. -/
def resolveTokenDataAction (W : World σ) (filename : String) (s : St σ) :
    Outcome ServiceAccountAllActions × St σ :=
  match ioutil_ReadFile W filename s with
  | (.error err, s1) => (.error (.collab err), s1)
  | (.ok fileBytes, s1) =>
    (.ok { Name := .TokenDataAction, TokenData := goString fileBytes }, s1)

/-! ## The GCP key resolver -/

/-- A call of `utils.PromptPlaintext`. -/
def utils_PromptPlaintext (W : World σ) (prompt : String) (s : St σ) :
    Except CollabError String × St σ :=
  ((W.PromptPlaintext s.world prompt).1,
    s.log (W.PromptPlaintext s.world prompt).2 (Event.PromptPlaintext prompt))

/-- A call of `os.Stat`, with its two results: the `FileInfo`, nil when there
is an error, and the error, nil when there is none. -/
def os_Stat (W : World σ) (name : String) (s : St σ) :
    (Option FileInfo × Option CollabError) × St σ :=
  (match (W.Stat s.world name).1 with
    | .ok info => (some info, none)
    | .error err => (none, some err),
    s.log (W.Stat s.world name).2 (Event.Stat name))

/-- The function `os.IsNotExist`; it is false on a nil error. -/
def os_IsNotExist : Option CollabError → Bool
  | none => false
  | some err => err.notExist

/-- The method call `info.IsDir()`; on a nil `FileInfo` it panics, which is
the result `none`. -/
def FileInfo_IsDir : Option FileInfo → Option Bool
  | none => none
  | some info => some info.IsDir

/-- The condition `!os.IsNotExist(err) && !info.IsDir()`; `&&` evaluates its
right operand only when the left one is true. The result `none` is a panic. -/
def statCondition (info : Option FileInfo) (err : Option CollabError) : Option Bool :=
  if !os_IsNotExist err then (FileInfo_IsDir info).map (fun d => !d) else some false

/-- A call of `gcpLocal.NewDefaultAgent`. -/
def gcpLocal_NewDefaultAgent (W : World σ) (s : St σ) : Option Agent × St σ :=
  ((W.NewDefaultAgent s.world).1, s.log (W.NewDefaultAgent s.world).2 Event.NewDefaultAgent)

/-- A call of `agent.GetProjectIDForGKECluster`. -/
def agent_GetProjectIDForGKECluster (W : World σ) (agent : Option Agent)
    (endpoint : String) (s : St σ) : Option (Except CollabError String) × St σ :=
  ((W.GetProjectIDForGKECluster s.world agent endpoint).1,
    s.log (W.GetProjectIDForGKECluster s.world agent endpoint).2
      (Event.GetProjectIDForGKECluster endpoint))

/-- A call of `utils.StringWithCharset`. -/
def utils_StringWithCharset (W : World σ) (length : Nat) (charset : String) (s : St σ) :
    String × St σ :=
  ((W.StringWithCharset s.world length charset).1,
    s.log (W.StringWithCharset s.world length charset).2
      (Event.StringWithCharset length charset))

/-- A call of `agent.CreateServiceAccount`. -/
def agent_CreateServiceAccount (W : World σ) (agent : Agent) (name : String) (s : St σ) :
    Except CollabError Nat × St σ :=
  ((W.CreateServiceAccount s.world agent name).1,
    s.log (W.CreateServiceAccount s.world agent name).2
      (Event.CreateServiceAccount agent name))

/-- A call of `agent.SetServiceAccountIAMPolicy`. -/
def agent_SetServiceAccountIAMPolicy (W : World σ) (agent : Agent) (resp : Nat) (s : St σ) :
    Except CollabError Unit × St σ :=
  ((W.SetServiceAccountIAMPolicy s.world agent resp).1,
    s.log (W.SetServiceAccountIAMPolicy s.world agent resp).2
      (Event.SetServiceAccountIAMPolicy agent resp))

/-- A call of `agent.CreateServiceAccountKey`. -/
def agent_CreateServiceAccountKey (W : World σ) (agent : Agent) (resp : Nat) (s : St σ) :
    Except CollabError Bytes × St σ :=
  ((W.CreateServiceAccountKey s.world agent resp).1,
    s.log (W.CreateServiceAccountKey s.world agent resp).2
      (Event.CreateServiceAccountKey agent resp))

/-- A call of `fmt.Println`: the line goes to standard output. -/
def fmt_Println (text : String) (s : St σ) : St σ :=
  s.log s.world (Event.Print (text ++ "\n"))

/-- A call of `fmt.Printf` with the text already formatted. -/
def fmt_Printf (text : String) (s : St σ) : St σ :=
  s.log s.world (Event.Print text)

/-- The text of the prompt of `resolveGCPKeyActionManual`. -/
def keyFilePrompt : String :=
  "Please provide the full path to a service account key file.\nKey file location: "

/-- The text of the prompt of `resolveGCPKeyAction`. -/
def provisionPrompt (endpoint clusterName : String) : String :=
  "Detected GKE cluster in kubeconfig for the endpoint " ++ endpoint ++ " (" ++ clusterName ++
    "). \nPorter can set up a service account in your GCP project to connect to this cluster automatically.\nWould you like to proceed? [y/n] "

/-- The manual path: asks for the location of a key file and reads it. -/
def resolveGCPKeyActionManual (W : World σ) (_endpoint _clusterName : String) (s : St σ) :
    Outcome ServiceAccountAllActions × St σ :=
  match utils_PromptPlaintext W keyFilePrompt s with
  | (.error err, s1) => (.error (.collab err), s1)
  | (.ok keyFileLocation, s1) =>
    -- attempt to read the key file location
    match os_Stat W keyFileLocation s1 with
    | ((info, err), s2) =>
      match statCondition info err with
      | none => (.panic, s2)
      | some true =>
        -- read the file
        match ioutil_ReadFile W keyFileLocation s2 with
        | (.error err, s3) => (.error (.collab err), s3)
        | (.ok bytes, s3) =>
          (.ok { Name := .GCPKeyDataAction, GCPKeyData := goString bytes }, s3)
      | some false => (.error .keyFileNotFound, s2)

/-- Resolves a gcp key data action. The agent may be nil: the error result of
its construction is dropped. The assignment `agent.ProjectID = projID` writes
through the agent and panics when it is nil. -/
def resolveGCPKeyAction (W : World σ) (endpoint clusterName : String) (s : St σ) :
    Outcome ServiceAccountAllActions × St σ :=
  match utils_PromptPlaintext W (provisionPrompt endpoint clusterName) s with
  | (.error err, s1) => (.error (.collab err), s1)
  | (.ok userResp, s1) =>
    if strings_ToLower userResp = "y" ∨ strings_ToLower userResp = "yes" then
      match gcpLocal_NewDefaultAgent W s1 with
      | (agentOrNil, s2) =>
        match agent_GetProjectIDForGKECluster W agentOrNil endpoint s2 with
        | (none, s3) => (.panic, s3)
        | (some (.error err), s3) => (.error (.collab err), s3)
        | (some (.ok projID), s3) =>
          match agentOrNil with
          | none => (.panic, s3)
          | some agent =>
            match utils_StringWithCharset W 6 "abcdefghijklmnopqrstuvwxyz1234567890" s3 with
            | (suffix, s4) =>
              -- create the service account and give it the correct iam permissions
              match agent_CreateServiceAccount W { agent with ProjectID := projID }
                  ("porter-dashboard-" ++ suffix) s4 with
              | (.error _, s5) =>
                resolveGCPKeyActionManual W endpoint clusterName
                  (fmt_Println "Automatic creation failed." s5)
              | (.ok resp, s5) =>
                match agent_SetServiceAccountIAMPolicy W { agent with ProjectID := projID }
                    resp s5 with
                | (.error err, s6) => (.error (.collab err), s6)
                | (.ok _, s6) =>
                  -- get the service account key data to send to the server
                  match agent_CreateServiceAccountKey W { agent with ProjectID := projID }
                      resp s6 with
                  | (.error err, s7) => (.error (.collab err), s7)
                  | (.ok bytes, s7) =>
                    (.ok { Name := .GCPKeyDataAction, GCPKeyData := goString bytes }, s7)
    else
      resolveGCPKeyActionManual W endpoint clusterName s1

/-! ## The orchestrator -/

/-- A call of `local.GetKubeconfigFromHost`. -/
def local_GetKubeconfigFromHost (W : World σ) (kubeconfigPath : String)
    (contexts : List String) (s : St σ) : Except CollabError Bytes × St σ :=
  ((W.GetKubeconfigFromHost s.world kubeconfigPath contexts).1,
    s.log (W.GetKubeconfigFromHost s.world kubeconfigPath contexts).2
      (Event.GetKubeconfigFromHost kubeconfigPath contexts))

/-- A call of `api.NewClient`. -/
def api_NewClient (W : World σ) (baseURL cookieFile : String) (s : St σ) : Nat × St σ :=
  ((W.NewClient s.world baseURL cookieFile).1,
    s.log (W.NewClient s.world baseURL cookieFile).2 (Event.NewClient baseURL cookieFile))

/-- A call of `client.CreateProjectCandidates`. -/
def client_CreateProjectCandidates (W : World σ) (client projectID : Nat)
    (kubeconfig : String) (s : St σ) :
    Except CollabError (List ServiceAccountCandidate) × St σ :=
  ((W.CreateProjectCandidates s.world client projectID kubeconfig).1,
    s.log (W.CreateProjectCandidates s.world client projectID kubeconfig).2
      (Event.CreateProjectCandidates projectID kubeconfig))

/-- A call of `client.CreateProjectServiceAccount`. -/
def client_CreateProjectServiceAccount (W : World σ) (client projectID candidateID : Nat)
    (resolvers : List ServiceAccountAllActions) (s : St σ) :
    Except CollabError ServiceAccount × St σ :=
  ((W.CreateProjectServiceAccount s.world client projectID candidateID resolvers).1,
    s.log (W.CreateProjectServiceAccount s.world client projectID candidateID resolvers).2
      (Event.CreateProjectServiceAccount projectID candidateID resolvers))

/-- The statements that follow a resolver call in every case of the switch:
`if err != nil { return err }` and `resolvers = append(resolvers, resolveAction)`.
An error or a panic ends `Kubeconfig`. -/
def appendResolved (resolvers : List ServiceAccountAllActions)
    (r : Outcome ServiceAccountAllActions × St σ) :
    Outcome (List ServiceAccountAllActions) × St σ :=
  match r with
  | (.ok resolveAction, s1) => (.ok (resolvers ++ [resolveAction]), s1)
  | (.error err, s1) => (.error err, s1)
  | (.panic, s1) => (.panic, s1)

/-- The statement `switch action.Name`, the body of the inner loop. Its value is
the new value of `resolvers`. The switch has no `default`: a name that is none
of the seven constants runs no case. -/
def switchAction (W : World σ) (saCandidate : ServiceAccountCandidate)
    (action : ServiceAccountAction) (resolvers : List ServiceAccountAllActions) (s : St σ) :
    Outcome (List ServiceAccountAllActions) × St σ :=
  match action.Name with
  | .ClusterCADataAction =>
    appendResolved resolvers (resolveClusterCAAction W action.Filename s)
  | .ClientCertDataAction =>
    appendResolved resolvers (resolveClientCertAction W action.Filename s)
  | .ClientKeyDataAction =>
    appendResolved resolvers (resolveClientKeyAction W action.Filename s)
  | .OIDCIssuerDataAction =>
    appendResolved resolvers (resolveOIDCIssuerAction W action.Filename s)
  | .TokenDataAction =>
    appendResolved resolvers (resolveTokenDataAction W action.Filename s)
  | .GCPKeyDataAction =>
    appendResolved resolvers
      (resolveGCPKeyAction W saCandidate.ClusterEndpoint saCandidate.ClusterName s)
  | .AWSKeyDataAction => (.ok resolvers, s)
  | .other _ => (.ok resolvers, s)

/-- The inner loop `for _, action := range saCandidate.Actions`. -/
def rangeActions (W : World σ) (saCandidate : ServiceAccountCandidate) :
    List ServiceAccountAction → List ServiceAccountAllActions → St σ →
      Outcome (List ServiceAccountAllActions) × St σ
  | [], resolvers, s => (.ok resolvers, s)
  | action :: rest, resolvers, s =>
    match switchAction W saCandidate action resolvers s with
    | (.ok resolvers1, s1) => rangeActions W saCandidate rest resolvers1 s1
    | (.error err, s1) => (.error err, s1)
    | (.panic, s1) => (.panic, s1)

/-- The loop `for _, cluster := range sa.Clusters`, which prints one line for
each cluster. -/
def rangeClusters (sa : ServiceAccount) : List Cluster → St σ → St σ
  | [], s => s
  | cluster :: rest, s =>
    rangeClusters sa rest
      (fmt_Printf ("created service account for cluster " ++ cluster.Name ++ " with id " ++
        toString sa.ID ++ "\n") s)

/-- The outer loop `for _, saCandidate := range saCandidates`. For each
candidate `resolvers` starts as an empty list. -/
def rangeCandidates (W : World σ) (client projectID : Nat) :
    List ServiceAccountCandidate → St σ → Outcome Unit × St σ
  | [], s => (.ok (), s)
  | saCandidate :: rest, s =>
    match rangeActions W saCandidate saCandidate.Actions [] s with
    | (.error err, s1) => (.error err, s1)
    | (.panic, s1) => (.panic, s1)
    | (.ok resolvers, s1) =>
      match client_CreateProjectServiceAccount W client projectID saCandidate.ID
          resolvers s1 with
      | (.error err, s2) => (.error (.collab err), s2)
      | (.ok sa, s2) => rangeCandidates W client projectID rest (rangeClusters sa sa.Clusters s2)

/-- Kubeconfig creates a service account for a project by parsing the local
kubeconfig and resolving actions that must be performed. The result `ok ()` is
the return of a nil error. -/
def Kubeconfig (W : World σ) (kubeconfigPath : String) (contexts : List String)
    (host : String) (projectID : Nat) (s : St σ) : Outcome Unit × St σ :=
  -- if project ID is 0, ask the user to set the project ID or create a project
  if projectID = 0 then (.error .noProjectSet, s)
  else
    -- get the kubeconfig
    match local_GetKubeconfigFromHost W kubeconfigPath contexts s with
    | (.error err, s1) => (.error (.collab err), s1)
    | (.ok rawBytes, s1) =>
      -- send kubeconfig to client
      match api_NewClient W (host ++ "/api") "cookie.json" s1 with
      | (client, s2) =>
        match client_CreateProjectCandidates W client projectID (goString rawBytes) s2 with
        | (.error err, s3) => (.error (.collab err), s3)
        | (.ok saCandidates, s3) => rangeCandidates W client projectID saCandidates s3

/-! ## Reading traces -/

/-- The calls to the cloud-provider agent, its construction included. -/
def Event.isAgentCall : Event → Bool
  | .NewDefaultAgent => true
  | .GetProjectIDForGKECluster _ => true
  | .CreateServiceAccount _ _ => true
  | .SetServiceAccountIAMPolicy _ _ => true
  | .CreateServiceAccountKey _ _ => true
  | _ => false

/-- The set-IAM-policy and create-key calls. -/
def Event.isPolicyOrKeyCall : Event → Bool
  | .SetServiceAccountIAMPolicy _ _ => true
  | .CreateServiceAccountKey _ _ => true
  | _ => false

/-- The calls the manual path can make: a prompt, `os.Stat`, `ioutil.ReadFile`. -/
def Event.isManualCall : Event → Bool
  | .PromptPlaintext _ => true
  | .Stat _ => true
  | .ReadFile _ => true
  | _ => false

/-- The finalize calls of a trace, oldest first, each with its project
identifier, candidate identifier and Resolved Action Set. -/
def finalizeCalls : List Event → List (Nat × Nat × List ServiceAccountAllActions)
  | [] => []
  | .CreateProjectServiceAccount projectID candidateID resolvers :: rest =>
    (projectID, candidateID, resolvers) :: finalizeCalls rest
  | _ :: rest => finalizeCalls rest

/-- The calls of the automatic path up to the creation of the service account. -/
def creationCalls (endpoint clusterName : String) (agent : Agent) (projID suffix : String) :
    List Event :=
  [Event.PromptPlaintext (provisionPrompt endpoint clusterName),
   Event.NewDefaultAgent,
   Event.GetProjectIDForGKECluster endpoint,
   Event.StringWithCharset 6 "abcdefghijklmnopqrstuvwxyz1234567890",
   Event.CreateServiceAccount { agent with ProjectID := projID } ("porter-dashboard-" ++ suffix)]

/-- The calls a resolver can make: everything except the four calls that
`Kubeconfig` makes itself. -/
def Event.isResolverCall : Event → Bool
  | .GetKubeconfigFromHost _ _ => false
  | .NewClient _ _ => false
  | .CreateProjectCandidates _ _ => false
  | .CreateProjectServiceAccount _ _ _ => false
  | _ => true

/-! ## The kinds of actions -/

/-- The fixed set of kinds: the seven names that have a case in the switch. -/
def ActionName.inFixedSet : ActionName → Bool
  | .other _ => false
  | _ => true

/-- The five kinds whose resolver reads the file named by the action. -/
def ActionName.isFileBacked : ActionName → Bool
  | .ClusterCADataAction => true
  | .ClientCertDataAction => true
  | .ClientKeyDataAction => true
  | .OIDCIssuerDataAction => true
  | .TokenDataAction => true
  | _ => false

/-- A candidate without the actions whose kind is outside the fixed set. -/
def dropUnrecognized (c : ServiceAccountCandidate) : ServiceAccountCandidate :=
  { c with Actions := c.Actions.filter (fun a => a.Name.inFixedSet) }

/-- The same collaborators, with the function `f` applied to the candidates
that the remote analysis returns. -/
def World.mapCandidates (W : World σ)
    (f : List ServiceAccountCandidate → List ServiceAccountCandidate) : World σ :=
  { W with
    CreateProjectCandidates := fun w client projectID kubeconfig =>
      (match (W.CreateProjectCandidates w client projectID kubeconfig).1 with
        | .ok saCandidates => .ok (f saCandidates)
        | .error err => .error err,
       (W.CreateProjectCandidates w client projectID kubeconfig).2) }

/-! ## The pass as the specification describes it -/

/-- Follows the specification (4.1, the registry): the resolver that the kind
of an action selects. `AWSKeyData` is recognized and has no resolver; a name
outside the fixed set has none either. -/
def resolverOf (W : World σ) (saCandidate : ServiceAccountCandidate)
    (action : ServiceAccountAction) :
    Option (St σ → Outcome ServiceAccountAllActions × St σ) :=
  match action.Name with
  | .ClusterCADataAction => some (resolveClusterCAAction W action.Filename)
  | .ClientCertDataAction => some (resolveClientCertAction W action.Filename)
  | .ClientKeyDataAction => some (resolveClientKeyAction W action.Filename)
  | .OIDCIssuerDataAction => some (resolveOIDCIssuerAction W action.Filename)
  | .TokenDataAction => some (resolveTokenDataAction W action.Filename)
  | .GCPKeyDataAction =>
    some (resolveGCPKeyAction W saCandidate.ClusterEndpoint saCandidate.ClusterName)
  | .AWSKeyDataAction => none
  | .other _ => none

/-- Follows the specification (4.4 c): the resolutions of the actions of a
candidate, one after the other in the order of the list, an action without a
resolver contributing nothing. The value is `none` as soon as one resolution
does not succeed. -/
def resolutions (W : World σ) (saCandidate : ServiceAccountCandidate) :
    List ServiceAccountAction → St σ → Option (List ServiceAccountAllActions × St σ)
  | [], s => some ([], s)
  | action :: rest, s =>
    match resolverOf W saCandidate action with
    | none => resolutions W saCandidate rest s
    | some resolve =>
      match resolve s with
      | (.ok resolved, s1) =>
        match resolutions W saCandidate rest s1 with
        | some (others, s2) => some (resolved :: others, s2)
        | none => none
      | (.error _, _) => none
      | (.panic, _) => none

/-- Follows the specification (4.4 c to e): the finalize requests of a pass in
which every resolution and every finalize call succeeds: for each candidate, in
the order of the list, the project, the identifier of the candidate and the
resolutions of its actions. The value is `none` as soon as a resolution or a
finalize call does not succeed. -/
def successfulPass (W : World σ) (client projectID : Nat) :
    List ServiceAccountCandidate → St σ →
      Option (List (Nat × Nat × List ServiceAccountAllActions) × St σ)
  | [], s => some ([], s)
  | saCandidate :: rest, s =>
    match resolutions W saCandidate saCandidate.Actions s with
    | none => none
    | some (resolved, s1) =>
      match client_CreateProjectServiceAccount W client projectID saCandidate.ID
          resolved s1 with
      | (.error _, _) => none
      | (.ok sa, s2) =>
        match successfulPass W client projectID rest (rangeClusters sa sa.Clusters s2) with
        | none => none
        | some (calls, s3) => some ((projectID, saCandidate.ID, resolved) :: calls, s3)

/-- What the claim on a successful pass says of one candidate and its finalize
call: the call carries the project and the identifier of the candidate, and its
Resolved Action Set has one element for each action that is not `AWSKeyData`,
of the same kind and in the same order. -/
def FinalizesCandidate (projectID : Nat) (saCandidate : ServiceAccountCandidate)
    (call : Nat × Nat × List ServiceAccountAllActions) : Prop :=
  call.1 = projectID ∧ call.2.1 = saCandidate.ID ∧
  call.2.2.map (fun r => r.Name) =
    (saCandidate.Actions.map (fun a => a.Name)).filter
      (fun n => decide (n ≠ ActionName.AWSKeyDataAction)) ∧
  call.2.2.length =
    (saCandidate.Actions.filter
      (fun a => decide (a.Name ≠ ActionName.AWSKeyDataAction))).length

/-! ## Concrete worlds -/

/-- A fixed behaviour of the collaborators, used to run the code on concrete
inputs. -/
structure Scenario where
  kubeconfig : Except CollabError Bytes
  candidates : Except CollabError (List ServiceAccountCandidate)
  files : String → Except CollabError Bytes
  stat : String → Except CollabError FileInfo
  agent : Option Agent
  project : Option (Except CollabError String)
  account : Except CollabError Nat
  policy : Except CollabError Unit
  key : Except CollabError Bytes

/-- The error of a prompt whose input stream is closed. -/
def eof : CollabError := CollabError.mk "EOF" false

/-- The error of a path that does not exist. -/
def enoent : CollabError := CollabError.mk "no such file or directory" true

/-- The error of a path below a regular file. -/
def enotdir : CollabError := CollabError.mk "not a directory" false

/-- The world of a scenario. The hidden state is the list of the answers the
terminal will give to the next prompts; once it is exhausted a prompt fails. -/
def Scenario.world (sc : Scenario) : World (List (Except CollabError String)) where
  GetKubeconfigFromHost := fun w _ _ => (sc.kubeconfig, w)
  NewClient := fun w _ _ => (1, w)
  CreateProjectCandidates := fun w _ _ _ => (sc.candidates, w)
  CreateProjectServiceAccount := fun w _ _ candidateID _ =>
    (.ok (ServiceAccount.mk (100 + candidateID) [Cluster.mk "remote"]), w)
  ReadFile := fun w name => (sc.files name, w)
  Stat := fun w name => (sc.stat name, w)
  PromptPlaintext := fun w _ =>
    match w with
    | [] => (.error eof, [])
    | answer :: rest => (answer, rest)
  NewDefaultAgent := fun w => (sc.agent, w)
  GetProjectIDForGKECluster := fun w _ _ => (sc.project, w)
  StringWithCharset := fun w _ _ => ("abc123", w)
  CreateServiceAccount := fun w _ _ => (sc.account, w)
  SetServiceAccountIAMPolicy := fun w _ _ => (sc.policy, w)
  CreateServiceAccountKey := fun w _ _ => (sc.key, w)

/-- A small file system: two readable files, one directory, one path below a
regular file; every other path is missing. -/
def demoFiles (name : String) : Except CollabError Bytes :=
  if name = "ca.pem" then .ok [77, 97, 110]
  else if name = "token.txt" then .ok [104, 105]
  else if name = "key.json" then .ok [107, 101, 121]
  else if name = "dir" then .error (CollabError.mk "is a directory" false)
  else if name = "ca.pem/key.json" then .error enotdir
  else .error enoent

/-- What `os.Stat` answers on the small file system. -/
def demoStat (name : String) : Except CollabError FileInfo :=
  if name = "ca.pem" ∨ name = "token.txt" ∨ name = "key.json" then .ok (FileInfo.mk false)
  else if name = "dir" then .ok (FileInfo.mk true)
  else if name = "ca.pem/key.json" then .error enotdir
  else .error enoent

/-- A scenario over the small file system in which the agent succeeds at
every step and the analysis returns the given candidates. -/
def demo (candidates : List ServiceAccountCandidate) : Scenario where
  kubeconfig := .ok [97]
  candidates := .ok candidates
  files := demoFiles
  stat := demoStat
  agent := some (Agent.mk 7 "")
  project := some (.ok "my-project")
  account := .ok 5
  policy := .ok ()
  key := .ok [115, 97]

/-- The start of a run in a scenario world: the given answers are pending and
no call has been made. -/
def start (answers : List (Except CollabError String)) :
    St (List (Except CollabError String)) :=
  St.mk answers []

/-- The scenario `demo` on a machine where the agent cannot be constructed:
the agent is nil, and its method answers all the same. -/
def demoNoAgent : Scenario :=
  { demo [] with agent := none }

/-- The scenario `demo` on a machine where the agent cannot be constructed and
the method called through the nil agent panics. -/
def demoNilReceiver : Scenario :=
  { demo [] with agent := none, project := none }

/-- The scenario `demo` with an agent that cannot create the service account. -/
def demoCreateFails : Scenario :=
  { demo [] with account := .error (CollabError.mk "quota exceeded" false) }

/-- A candidate whose only action has a kind outside the fixed set. -/
def azureCandidate : ServiceAccountCandidate :=
  ServiceAccountCandidate.mk 3 "aks" "https://10.0.0.3"
    [ServiceAccountAction.mk (.other "upload-azure-key-data") "azure.json"]

/-- A candidate with two file-backed actions on readable files and an
`AWSKeyData` action between them. -/
def fileCandidate : ServiceAccountCandidate :=
  ServiceAccountCandidate.mk 4 "eks" "https://10.0.0.2"
    [ServiceAccountAction.mk .ClusterCADataAction "ca.pem",
     ServiceAccountAction.mk .AWSKeyDataAction "",
     ServiceAccountAction.mk .TokenDataAction "token.txt"]

/-- A candidate whose only action is a client key in a missing file. -/
def missingKeyCandidate : ServiceAccountCandidate :=
  ServiceAccountCandidate.mk 5 "gke" "https://10.0.0.1"
    [ServiceAccountAction.mk .ClientKeyDataAction "missing.key"]

/-- The calls with which `Kubeconfig` starts in the scenario worlds. -/
def openingCalls : List Event :=
  [Event.GetKubeconfigFromHost "kubeconfig" ["ctx"],
   Event.NewClient "http://localhost/api" "cookie.json",
   Event.CreateProjectCandidates 1 "a"]

/-- The calls that `Kubeconfig` makes for `fileCandidate` in the scenario
worlds. -/
def fileCandidateCalls : List Event :=
  [Event.ReadFile "ca.pem",
   Event.ReadFile "token.txt",
   Event.CreateProjectServiceAccount 1 4
     [{ Name := .ClusterCADataAction, ClusterCAData := "TWFu" },
      { Name := .TokenDataAction, TokenData := "hi" }],
   Event.Print "created service account for cluster remote with id 104\n"]

/-- A candidate whose only action asks for a GCP key. -/
def gcpCandidate : ServiceAccountCandidate :=
  ServiceAccountCandidate.mk 6 "gke" "https://10.0.0.1"
    [ServiceAccountAction.mk .GCPKeyDataAction ""]

/-- The calls that `Kubeconfig` makes for `gcpCandidate` in the scenario `demo`
when the user answers yes. -/
def gcpCandidateCalls : List Event :=
  creationCalls "https://10.0.0.1" "gke" (Agent.mk 7 "") "my-project" "abc123" ++
    [Event.SetServiceAccountIAMPolicy (Agent.mk 7 "my-project") 5,
     Event.CreateServiceAccountKey (Agent.mk 7 "my-project") 5,
     Event.CreateProjectServiceAccount 1 6
       [{ Name := .GCPKeyDataAction, GCPKeyData := "sa" }],
     Event.Print "created service account for cluster remote with id 106\n"]

/-! ## Lemmas -/

/-- The encoder on the three lengths modulo 3, and the lowering of answers. -/
theorem encoding_examples :
    base64_StdEncoding_EncodeToString [77, 97, 110] = "TWFu" ∧
    base64_StdEncoding_EncodeToString [77, 97] = "TWE=" ∧
    base64_StdEncoding_EncodeToString [77] = "TQ==" ∧
    base64_StdEncoding_EncodeToString [] = "" ∧
    goString [104, 105] = "hi" ∧
    strings_ToLower "YeS" = "yes" := by
  decide

/-- The manual path never returns the error of `Kubeconfig` about the project. -/
theorem manual_ne_noProjectSet (W : World σ) (endpoint clusterName : String) (s : St σ) :
    (resolveGCPKeyActionManual W endpoint clusterName s).1 ≠ .error .noProjectSet := by
  unfold resolveGCPKeyActionManual
  split
  · simp
  · split
    split
    · simp
    · split <;> simp
    · simp

/-- The GCP key resolver never returns the error of `Kubeconfig` about the project. -/
theorem gcp_ne_noProjectSet (W : World σ) (endpoint clusterName : String) (s : St σ) :
    (resolveGCPKeyAction W endpoint clusterName s).1 ≠ .error .noProjectSet := by
  unfold resolveGCPKeyAction
  split
  · simp
  · split
    · split
      split
      · simp
      · simp
      · split
        · simp
        · split
          split
          · exact manual_ne_noProjectSet _ _ _ _
          · split
            · simp
            · split <;> simp
    · exact manual_ne_noProjectSet _ _ _ _

/-- After a resolver that does not return the project error, neither does the
append step. -/
theorem appendResolved_ne_noProjectSet (resolvers : List ServiceAccountAllActions)
    (r : Outcome ServiceAccountAllActions × St σ) (h : r.1 ≠ .error .noProjectSet) :
    (appendResolved resolvers r).1 ≠ .error .noProjectSet := by
  obtain ⟨o, s1⟩ := r
  cases o <;> simp_all [appendResolved]

/-- The switch never returns the project error. -/
theorem switchAction_ne_noProjectSet (W : World σ) (saCandidate : ServiceAccountCandidate)
    (action : ServiceAccountAction) (resolvers : List ServiceAccountAllActions) (s : St σ) :
    (switchAction W saCandidate action resolvers s).1 ≠ .error .noProjectSet := by
  unfold switchAction
  split
  · apply appendResolved_ne_noProjectSet
    unfold resolveClusterCAAction
    split <;> simp
  · apply appendResolved_ne_noProjectSet
    unfold resolveClientCertAction
    split <;> simp
  · apply appendResolved_ne_noProjectSet
    unfold resolveClientKeyAction
    split <;> simp
  · apply appendResolved_ne_noProjectSet
    unfold resolveOIDCIssuerAction
    split <;> simp
  · apply appendResolved_ne_noProjectSet
    unfold resolveTokenDataAction
    split <;> simp
  · apply appendResolved_ne_noProjectSet
    exact gcp_ne_noProjectSet _ _ _ _
  · simp
  · simp

/-- The inner loop never returns the project error. -/
theorem rangeActions_ne_noProjectSet (W : World σ) (saCandidate : ServiceAccountCandidate)
    (actions : List ServiceAccountAction) :
    ∀ (resolvers : List ServiceAccountAllActions) (s : St σ),
      (rangeActions W saCandidate actions resolvers s).1 ≠ .error .noProjectSet := by
  induction actions with
  | nil => intro resolvers s; simp [rangeActions]
  | cons action rest ih =>
    intro resolvers s
    have h := switchAction_ne_noProjectSet W saCandidate action resolvers s
    unfold rangeActions
    split
    · exact ih _ _
    · rename_i err s1 heq
      rw [heq] at h
      simpa using h
    · simp

/-- The outer loop never returns the project error. -/
theorem rangeCandidates_ne_noProjectSet (W : World σ) (client projectID : Nat)
    (saCandidates : List ServiceAccountCandidate) :
    ∀ s : St σ, (rangeCandidates W client projectID saCandidates s).1 ≠
      .error .noProjectSet := by
  induction saCandidates with
  | nil => intro s; simp [rangeCandidates]
  | cons saCandidate rest ih =>
    intro s
    have h := rangeActions_ne_noProjectSet W saCandidate saCandidate.Actions [] s
    unfold rangeCandidates
    split
    · rename_i err s1 heq
      rw [heq] at h
      simpa using h
    · simp
    · split
      · simp
      · exact ih _

/-- The calls of the manual path are a prompt, then possibly `os.Stat`, then
possibly `ioutil.ReadFile`, and nothing else. -/
theorem manual_trace (W : World σ) (endpoint clusterName : String) (s : St σ) :
    ∃ evs, (resolveGCPKeyActionManual W endpoint clusterName s).2.trace = s.trace ++ evs ∧
      ∀ e ∈ evs, e.isManualCall = true := by
  unfold resolveGCPKeyActionManual
  split
  · rename_i err s1 heq
    have h1 : s1.trace = s.trace ++ [Event.PromptPlaintext keyFilePrompt] := by
      rw [← congrArg (fun r => r.2.trace) heq]; rfl
    exact ⟨_, h1, by simp [Event.isManualCall]⟩
  · rename_i keyFileLocation s1 heq
    have h1 : s1.trace = s.trace ++ [Event.PromptPlaintext keyFilePrompt] := by
      rw [← congrArg (fun r => r.2.trace) heq]; rfl
    split
    rename_i info err s2 heq2
    have h2 : s2.trace = s1.trace ++ [Event.Stat keyFileLocation] := by
      rw [← congrArg (fun r => r.2.trace) heq2]; rfl
    have h12 : s2.trace =
        s.trace ++ [Event.PromptPlaintext keyFilePrompt, Event.Stat keyFileLocation] := by
      rw [h2, h1]; simp
    split
    · exact ⟨_, h12, by simp [Event.isManualCall]⟩
    · have h3 : ∀ (r : Except CollabError Bytes) (s3 : St σ),
          ioutil_ReadFile W keyFileLocation s2 = (r, s3) →
          s3.trace = s.trace ++ [Event.PromptPlaintext keyFilePrompt,
            Event.Stat keyFileLocation, Event.ReadFile keyFileLocation] := by
        intro r s3 heq3
        rw [← congrArg (fun r => r.2.trace) heq3]
        simp [ioutil_ReadFile, St.log, h12]
      split
      · rename_i heq3
        exact ⟨_, h3 _ _ heq3, by simp [Event.isManualCall]⟩
      · rename_i heq3
        exact ⟨_, h3 _ _ heq3, by simp [Event.isManualCall]⟩
    · exact ⟨_, h12, by simp [Event.isManualCall]⟩

/-- The result of the GCP key resolver when the prompt cannot be read. -/
theorem gcp_prompt_error (W : World σ) (endpoint clusterName : String) (s : St σ)
    (err : CollabError) (w1 : σ)
    (hp : W.PromptPlaintext s.world (provisionPrompt endpoint clusterName) = (.error err, w1)) :
    resolveGCPKeyAction W endpoint clusterName s =
      (.error (.collab err),
        St.mk w1 (s.trace ++ [Event.PromptPlaintext (provisionPrompt endpoint clusterName)])) := by
  simp [resolveGCPKeyAction, utils_PromptPlaintext, St.log, hp]

/-- The result of the GCP key resolver on an answer that is not affirmative. -/
theorem gcp_not_affirmative (W : World σ) (endpoint clusterName : String) (s : St σ)
    (userResp : String) (w1 : σ)
    (hp : W.PromptPlaintext s.world (provisionPrompt endpoint clusterName) = (.ok userResp, w1))
    (hno : ¬(strings_ToLower userResp = "y" ∨ strings_ToLower userResp = "yes")) :
    resolveGCPKeyAction W endpoint clusterName s =
      resolveGCPKeyActionManual W endpoint clusterName
        (St.mk w1 (s.trace ++ [Event.PromptPlaintext (provisionPrompt endpoint clusterName)])) := by
  simp only [resolveGCPKeyAction, utils_PromptPlaintext, St.log, hp, if_neg hno]

/-- The result of the GCP key resolver when the project cannot be resolved. -/
theorem gcp_project_error (W : World σ) (endpoint clusterName : String) (s : St σ)
    (userResp : String) (w1 w2 w3 : σ) (agent : Option Agent) (err : CollabError)
    (hp : W.PromptPlaintext s.world (provisionPrompt endpoint clusterName) = (.ok userResp, w1))
    (hyes : strings_ToLower userResp = "y" ∨ strings_ToLower userResp = "yes")
    (hagent : W.NewDefaultAgent w1 = (agent, w2))
    (hproj : W.GetProjectIDForGKECluster w2 agent endpoint = (some (.error err), w3)) :
    resolveGCPKeyAction W endpoint clusterName s =
      (.error (.collab err),
        St.mk w3 (s.trace ++ [Event.PromptPlaintext (provisionPrompt endpoint clusterName),
          Event.NewDefaultAgent, Event.GetProjectIDForGKECluster endpoint])) := by
  simp [resolveGCPKeyAction, utils_PromptPlaintext, gcpLocal_NewDefaultAgent,
    agent_GetProjectIDForGKECluster, St.log, hp, if_pos hyes, hagent, hproj]

/-- The result of the GCP key resolver when the method called through the
agent panics. -/
theorem gcp_project_panic (W : World σ) (endpoint clusterName : String) (s : St σ)
    (userResp : String) (w1 w2 w3 : σ) (agent : Option Agent)
    (hp : W.PromptPlaintext s.world (provisionPrompt endpoint clusterName) = (.ok userResp, w1))
    (hyes : strings_ToLower userResp = "y" ∨ strings_ToLower userResp = "yes")
    (hagent : W.NewDefaultAgent w1 = (agent, w2))
    (hproj : W.GetProjectIDForGKECluster w2 agent endpoint = (none, w3)) :
    resolveGCPKeyAction W endpoint clusterName s =
      (.panic,
        St.mk w3 (s.trace ++ [Event.PromptPlaintext (provisionPrompt endpoint clusterName),
          Event.NewDefaultAgent, Event.GetProjectIDForGKECluster endpoint])) := by
  simp [resolveGCPKeyAction, utils_PromptPlaintext, gcpLocal_NewDefaultAgent,
    agent_GetProjectIDForGKECluster, St.log, hp, if_pos hyes, hagent, hproj]

/-- The result of the GCP key resolver when the agent is nil and the project
is resolved all the same: the assignment to `agent.ProjectID` panics. -/
theorem gcp_nil_agent_panic (W : World σ) (endpoint clusterName : String) (s : St σ)
    (userResp : String) (w1 w2 w3 : σ) (projID : String)
    (hp : W.PromptPlaintext s.world (provisionPrompt endpoint clusterName) = (.ok userResp, w1))
    (hyes : strings_ToLower userResp = "y" ∨ strings_ToLower userResp = "yes")
    (hagent : W.NewDefaultAgent w1 = (none, w2))
    (hproj : W.GetProjectIDForGKECluster w2 none endpoint = (some (.ok projID), w3)) :
    resolveGCPKeyAction W endpoint clusterName s =
      (.panic,
        St.mk w3 (s.trace ++ [Event.PromptPlaintext (provisionPrompt endpoint clusterName),
          Event.NewDefaultAgent, Event.GetProjectIDForGKECluster endpoint])) := by
  simp [resolveGCPKeyAction, utils_PromptPlaintext, gcpLocal_NewDefaultAgent,
    agent_GetProjectIDForGKECluster, St.log, hp, if_pos hyes, hagent, hproj]

/-- The result of the GCP key resolver when the creation of the service account
fails: the line "Automatic creation failed." is printed and the manual path
runs. -/
theorem gcp_create_error (W : World σ) (endpoint clusterName : String) (s : St σ)
    (userResp : String) (w1 w2 w3 w4 w5 : σ) (agent : Agent) (projID suffix : String)
    (err : CollabError)
    (hp : W.PromptPlaintext s.world (provisionPrompt endpoint clusterName) = (.ok userResp, w1))
    (hyes : strings_ToLower userResp = "y" ∨ strings_ToLower userResp = "yes")
    (hagent : W.NewDefaultAgent w1 = (some agent, w2))
    (hproj : W.GetProjectIDForGKECluster w2 (some agent) endpoint = (some (.ok projID), w3))
    (hname : W.StringWithCharset w3 6 "abcdefghijklmnopqrstuvwxyz1234567890" = (suffix, w4))
    (hcreate : W.CreateServiceAccount w4 { agent with ProjectID := projID }
      ("porter-dashboard-" ++ suffix) = (.error err, w5)) :
    resolveGCPKeyAction W endpoint clusterName s =
      resolveGCPKeyActionManual W endpoint clusterName
        (St.mk w5 (s.trace ++ (creationCalls endpoint clusterName agent projID suffix ++
          [Event.Print "Automatic creation failed.\n"]))) := by
  simp [resolveGCPKeyAction, utils_PromptPlaintext, gcpLocal_NewDefaultAgent,
    agent_GetProjectIDForGKECluster, utils_StringWithCharset, agent_CreateServiceAccount,
    fmt_Println, creationCalls, St.log, hp, if_pos hyes, hagent, hproj, hname, hcreate]

/-- The result of the GCP key resolver when the IAM policy cannot be set. -/
theorem gcp_policy_error (W : World σ) (endpoint clusterName : String) (s : St σ)
    (userResp : String) (w1 w2 w3 w4 w5 w6 : σ) (agent : Agent) (projID suffix : String)
    (resp : Nat) (err : CollabError)
    (hp : W.PromptPlaintext s.world (provisionPrompt endpoint clusterName) = (.ok userResp, w1))
    (hyes : strings_ToLower userResp = "y" ∨ strings_ToLower userResp = "yes")
    (hagent : W.NewDefaultAgent w1 = (some agent, w2))
    (hproj : W.GetProjectIDForGKECluster w2 (some agent) endpoint = (some (.ok projID), w3))
    (hname : W.StringWithCharset w3 6 "abcdefghijklmnopqrstuvwxyz1234567890" = (suffix, w4))
    (hcreate : W.CreateServiceAccount w4 { agent with ProjectID := projID }
      ("porter-dashboard-" ++ suffix) = (.ok resp, w5))
    (hpolicy : W.SetServiceAccountIAMPolicy w5 { agent with ProjectID := projID } resp =
      (.error err, w6)) :
    resolveGCPKeyAction W endpoint clusterName s =
      (.error (.collab err),
        St.mk w6 (s.trace ++ (creationCalls endpoint clusterName agent projID suffix ++
          [Event.SetServiceAccountIAMPolicy { agent with ProjectID := projID } resp]))) := by
  simp [resolveGCPKeyAction, utils_PromptPlaintext, gcpLocal_NewDefaultAgent,
    agent_GetProjectIDForGKECluster, utils_StringWithCharset, agent_CreateServiceAccount,
    agent_SetServiceAccountIAMPolicy, creationCalls, St.log, hp, if_pos hyes, hagent, hproj,
    hname, hcreate, hpolicy]

/-- The result of the GCP key resolver once the IAM policy is set: the outcome
of the create-key call, its bytes packaged unencoded. -/
theorem gcp_key_result (W : World σ) (endpoint clusterName : String) (s : St σ)
    (userResp : String) (w1 w2 w3 w4 w5 w6 w7 : σ) (agent : Agent) (projID suffix : String)
    (resp : Nat) (r : Except CollabError Bytes)
    (hp : W.PromptPlaintext s.world (provisionPrompt endpoint clusterName) = (.ok userResp, w1))
    (hyes : strings_ToLower userResp = "y" ∨ strings_ToLower userResp = "yes")
    (hagent : W.NewDefaultAgent w1 = (some agent, w2))
    (hproj : W.GetProjectIDForGKECluster w2 (some agent) endpoint = (some (.ok projID), w3))
    (hname : W.StringWithCharset w3 6 "abcdefghijklmnopqrstuvwxyz1234567890" = (suffix, w4))
    (hcreate : W.CreateServiceAccount w4 { agent with ProjectID := projID }
      ("porter-dashboard-" ++ suffix) = (.ok resp, w5))
    (hpolicy : W.SetServiceAccountIAMPolicy w5 { agent with ProjectID := projID } resp =
      (.ok (), w6))
    (hkey : W.CreateServiceAccountKey w6 { agent with ProjectID := projID } resp = (r, w7)) :
    resolveGCPKeyAction W endpoint clusterName s =
      (match r with
        | .error err => .error (.collab err)
        | .ok bytes => .ok { Name := .GCPKeyDataAction, GCPKeyData := goString bytes,
                             ClusterCAData := "", ClientCertData := "", ClientKeyData := "",
                             OIDCIssuerCAData := "", TokenData := "" },
        St.mk w7 (s.trace ++ (creationCalls endpoint clusterName agent projID suffix ++
          [Event.SetServiceAccountIAMPolicy { agent with ProjectID := projID } resp,
           Event.CreateServiceAccountKey { agent with ProjectID := projID } resp]))) := by
  cases r <;>
  simp [resolveGCPKeyAction, utils_PromptPlaintext, gcpLocal_NewDefaultAgent,
    agent_GetProjectIDForGKECluster, utils_StringWithCharset, agent_CreateServiceAccount,
    agent_SetServiceAccountIAMPolicy, agent_CreateServiceAccountKey, creationCalls, St.log,
    hp, if_pos hyes, hagent, hproj, hname, hcreate, hpolicy, hkey]

/-- A call of the manual path is not a call to the agent. -/
theorem isAgentCall_of_isManualCall (e : Event) (h : e.isManualCall = true) :
    e.isAgentCall = false := by
  cases e <;> simp_all [Event.isManualCall, Event.isAgentCall]

/-- A call of the manual path is neither a set-IAM-policy nor a create-key call. -/
theorem isPolicyOrKeyCall_of_isManualCall (e : Event) (h : e.isManualCall = true) :
    e.isPolicyOrKeyCall = false := by
  cases e <;> simp_all [Event.isManualCall, Event.isPolicyOrKeyCall]

/-- The provisioning prompt is never the text of the key-file prompt. -/
theorem provisionPrompt_ne_keyFilePrompt (endpoint clusterName : String) :
    provisionPrompt endpoint clusterName ≠ keyFilePrompt := by
  intro h
  have h2 := congrArg String.data h
  simp [provisionPrompt, keyFilePrompt, String.data_append] at h2

/-- After an affirmative answer the run starts with the provisioning prompt, the
construction of the agent and the resolution of the project. -/
theorem gcp_affirmative_trace (W : World σ) (endpoint clusterName : String) (s : St σ)
    (userResp : String) (w1 : σ)
    (hp : W.PromptPlaintext s.world (provisionPrompt endpoint clusterName) = (.ok userResp, w1))
    (hyes : strings_ToLower userResp = "y" ∨ strings_ToLower userResp = "yes") :
    ∃ evs, (resolveGCPKeyAction W endpoint clusterName s).2.trace =
      s.trace ++ Event.PromptPlaintext (provisionPrompt endpoint clusterName) ::
        Event.NewDefaultAgent :: Event.GetProjectIDForGKECluster endpoint :: evs := by
  rcases hagent : W.NewDefaultAgent w1 with ⟨agentOrNil, w2⟩
  rcases hproj : W.GetProjectIDForGKECluster w2 agentOrNil endpoint with ⟨rproj, w3⟩
  match rproj, hproj with
  | none, hproj =>
    rw [gcp_project_panic W endpoint clusterName s userResp w1 w2 w3 agentOrNil hp hyes hagent
      hproj]
    exact ⟨[], rfl⟩
  | some (.error err), hproj =>
    rw [gcp_project_error W endpoint clusterName s userResp w1 w2 w3 agentOrNil err hp hyes
      hagent hproj]
    exact ⟨[], rfl⟩
  | some (.ok projID), hproj =>
    cases agentOrNil with
    | none =>
      rw [gcp_nil_agent_panic W endpoint clusterName s userResp w1 w2 w3 projID hp hyes hagent
        hproj]
      exact ⟨[], rfl⟩
    | some agent =>
      rcases hname : W.StringWithCharset w3 6 "abcdefghijklmnopqrstuvwxyz1234567890" with
        ⟨suffix, w4⟩
      rcases hcreate : W.CreateServiceAccount w4 { agent with ProjectID := projID }
        ("porter-dashboard-" ++ suffix) with ⟨rcreate, w5⟩
      cases rcreate with
      | error err =>
        rw [gcp_create_error W endpoint clusterName s userResp w1 w2 w3 w4 w5 agent projID
          suffix err hp hyes hagent hproj hname hcreate]
        obtain ⟨evs, htr, _⟩ := manual_trace W endpoint clusterName
          (St.mk w5 (s.trace ++ (creationCalls endpoint clusterName agent projID suffix ++
            [Event.Print "Automatic creation failed.\n"])))
        rw [htr]
        exact ⟨_, by simp [creationCalls]; rfl⟩
      | ok resp =>
        rcases hpolicy : W.SetServiceAccountIAMPolicy w5 { agent with ProjectID := projID }
          resp with ⟨rpolicy, w6⟩
        cases rpolicy with
        | error err =>
          rw [gcp_policy_error W endpoint clusterName s userResp w1 w2 w3 w4 w5 w6 agent
            projID suffix resp err hp hyes hagent hproj hname hcreate hpolicy]
          exact ⟨_, by simp [creationCalls]; rfl⟩
        | ok u =>
          rcases hkey : W.CreateServiceAccountKey w6 { agent with ProjectID := projID } resp
            with ⟨rkey, w7⟩
          rw [gcp_key_result W endpoint clusterName s userResp w1 w2 w3 w4 w5 w6 w7 agent
            projID suffix resp rkey hp hyes hagent hproj hname hcreate hpolicy hkey]
          exact ⟨_, by simp [creationCalls]; rfl⟩

/-- The switch does not look at the candidates returned by the analysis. -/
theorem switchAction_mapCandidates (W : World σ)
    (f : List ServiceAccountCandidate → List ServiceAccountCandidate)
    (saCandidate : ServiceAccountCandidate) (action : ServiceAccountAction)
    (resolvers : List ServiceAccountAllActions) (s : St σ) :
    switchAction (W.mapCandidates f) saCandidate action resolvers s =
      switchAction W saCandidate action resolvers s :=
  rfl

/-- The inner loop does not look at the candidates returned by the analysis. -/
theorem rangeActions_mapCandidates (W : World σ)
    (f : List ServiceAccountCandidate → List ServiceAccountCandidate)
    (saCandidate : ServiceAccountCandidate) (actions : List ServiceAccountAction) :
    ∀ (resolvers : List ServiceAccountAllActions) (s : St σ),
      rangeActions (W.mapCandidates f) saCandidate actions resolvers s =
        rangeActions W saCandidate actions resolvers s := by
  induction actions with
  | nil => intro resolvers s; rfl
  | cons action rest ih =>
    intro resolvers s
    simp only [rangeActions, switchAction_mapCandidates, ih]

/-- The outer loop does not look at the candidates returned by the analysis. -/
theorem rangeCandidates_mapCandidates (W : World σ)
    (f : List ServiceAccountCandidate → List ServiceAccountCandidate)
    (client projectID : Nat) (saCandidates : List ServiceAccountCandidate) :
    ∀ s : St σ, rangeCandidates (W.mapCandidates f) client projectID saCandidates s =
      rangeCandidates W client projectID saCandidates s := by
  induction saCandidates with
  | nil => intro s; rfl
  | cons saCandidate rest ih =>
    intro s
    have hfin : ∀ (resolvers : List ServiceAccountAllActions) (s1 : St σ),
        client_CreateProjectServiceAccount (W.mapCandidates f) client projectID
          saCandidate.ID resolvers s1 =
        client_CreateProjectServiceAccount W client projectID saCandidate.ID resolvers s1 :=
      fun _ _ => rfl
    simp only [rangeCandidates, rangeActions_mapCandidates, hfin, ih]

/-- The inner loop skips the actions whose kind is outside the fixed set. -/
theorem rangeActions_filter (W : World σ) (saCandidate : ServiceAccountCandidate)
    (actions : List ServiceAccountAction) :
    ∀ (resolvers : List ServiceAccountAllActions) (s : St σ),
      rangeActions W saCandidate (actions.filter (fun a => a.Name.inFixedSet)) resolvers s =
        rangeActions W saCandidate actions resolvers s := by
  induction actions with
  | nil => intro resolvers s; rfl
  | cons action rest ih =>
    intro resolvers s
    obtain ⟨name, filename⟩ := action
    cases name
    case other tag =>
      rw [List.filter_cons_of_neg (by simp [ActionName.inFixedSet]), ih]
      simp only [rangeActions, switchAction]
    all_goals
      rw [List.filter_cons_of_pos (by simp [ActionName.inFixedSet])]
      simp only [rangeActions, switchAction, ih]

/-- The switch reads the endpoint and the name of the candidate only. -/
theorem rangeActions_dropUnrecognized (W : World σ) (saCandidate : ServiceAccountCandidate)
    (actions : List ServiceAccountAction) :
    ∀ (resolvers : List ServiceAccountAllActions) (s : St σ),
      rangeActions W (dropUnrecognized saCandidate) actions resolvers s =
        rangeActions W saCandidate actions resolvers s := by
  induction actions with
  | nil => intro resolvers s; rfl
  | cons action rest ih =>
    intro resolvers s
    have hsw : switchAction W (dropUnrecognized saCandidate) action resolvers s =
        switchAction W saCandidate action resolvers s := rfl
    simp only [rangeActions, hsw, ih]

/-- The outer loop runs alike on the candidates without their unrecognized
actions. -/
theorem rangeCandidates_dropUnrecognized (W : World σ) (client projectID : Nat)
    (saCandidates : List ServiceAccountCandidate) :
    ∀ s : St σ, rangeCandidates W client projectID (saCandidates.map dropUnrecognized) s =
      rangeCandidates W client projectID saCandidates s := by
  induction saCandidates with
  | nil => intro s; rfl
  | cons saCandidate rest ih =>
    intro s
    have hacts : rangeActions W (dropUnrecognized saCandidate)
        (dropUnrecognized saCandidate).Actions [] s =
        rangeActions W saCandidate saCandidate.Actions [] s := by
      rw [rangeActions_dropUnrecognized]
      exact rangeActions_filter W saCandidate saCandidate.Actions [] s
    have hid : (dropUnrecognized saCandidate).ID = saCandidate.ID := rfl
    simp only [List.map, rangeCandidates, hacts, hid, ih]

/-- The orchestrator runs alike when the analysis answer is stripped of the
actions whose kind is outside the fixed set. -/
theorem Kubeconfig_dropUnrecognized (W : World σ) (kubeconfigPath : String)
    (contexts : List String) (host : String) (projectID : Nat) (s : St σ) :
    Kubeconfig (W.mapCandidates (List.map dropUnrecognized)) kubeconfigPath contexts host
        projectID s =
      Kubeconfig W kubeconfigPath contexts host projectID s := by
  have h1 : local_GetKubeconfigFromHost (W.mapCandidates (List.map dropUnrecognized))
      kubeconfigPath contexts s = local_GetKubeconfigFromHost W kubeconfigPath contexts s :=
    rfl
  have h2 : ∀ s1 : St σ, api_NewClient (W.mapCandidates (List.map dropUnrecognized))
      (host ++ "/api") "cookie.json" s1 = api_NewClient W (host ++ "/api") "cookie.json" s1 :=
    fun _ => rfl
  unfold Kubeconfig
  rw [h1]
  split
  · rfl
  · split
    · rfl
    · rename_i rawBytes s1 _
      simp only [h2]
      rcases hc : W.CreateProjectCandidates (api_NewClient W (host ++ "/api") "cookie.json"
        s1).2.world (api_NewClient W (host ++ "/api") "cookie.json" s1).1 projectID
        (goString rawBytes) with ⟨rc, w3⟩
      cases rc <;>
        simp [client_CreateProjectCandidates, World.mapCandidates, hc,
          rangeCandidates_dropUnrecognized]
      exact rangeCandidates_mapCandidates W (List.map dropUnrecognized) _ _ _ _

/-- The finalize calls of two traces put end to end. -/
theorem finalizeCalls_append (xs ys : List Event) :
    finalizeCalls (xs ++ ys) = finalizeCalls xs ++ finalizeCalls ys := by
  induction xs with
  | nil => rfl
  | cons e rest ih => cases e <;> simp [finalizeCalls, ih]

/-- Calls made by resolvers contain no finalize call. -/
theorem finalizeCalls_of_resolverCalls (evs : List Event)
    (h : ∀ e ∈ evs, e.isResolverCall = true) : finalizeCalls evs = [] := by
  induction evs with
  | nil => rfl
  | cons e rest ih =>
    have he := h e (List.mem_cons_self _ _)
    have hrest := ih (fun x hx => h x (List.mem_cons_of_mem _ hx))
    cases e <;> simp_all [finalizeCalls, Event.isResolverCall]

/-- A call of the manual path is a call of a resolver. -/
theorem isResolverCall_of_isManualCall (e : Event) (h : e.isManualCall = true) :
    e.isResolverCall = true := by
  cases e <;> simp_all [Event.isManualCall, Event.isResolverCall]

/-- The only call of the cluster ca resolver is the file read. -/
theorem resolveClusterCAAction_trace (W : World σ) (filename : String) (s : St σ) :
    (resolveClusterCAAction W filename s).2.trace = s.trace ++ [Event.ReadFile filename] := by
  unfold resolveClusterCAAction
  split <;> (rename_i heq; rw [← congrArg (fun r => r.2.trace) heq]; rfl)

/-- The only call of the client cert resolver is the file read. -/
theorem resolveClientCertAction_trace (W : World σ) (filename : String) (s : St σ) :
    (resolveClientCertAction W filename s).2.trace = s.trace ++ [Event.ReadFile filename] := by
  unfold resolveClientCertAction
  split <;> (rename_i heq; rw [← congrArg (fun r => r.2.trace) heq]; rfl)

/-- The only call of the client key resolver is the file read. -/
theorem resolveClientKeyAction_trace (W : World σ) (filename : String) (s : St σ) :
    (resolveClientKeyAction W filename s).2.trace = s.trace ++ [Event.ReadFile filename] := by
  unfold resolveClientKeyAction
  split <;> (rename_i heq; rw [← congrArg (fun r => r.2.trace) heq]; rfl)

/-- The only call of the oidc issuer resolver is the file read. -/
theorem resolveOIDCIssuerAction_trace (W : World σ) (filename : String) (s : St σ) :
    (resolveOIDCIssuerAction W filename s).2.trace = s.trace ++ [Event.ReadFile filename] := by
  unfold resolveOIDCIssuerAction
  split <;> (rename_i heq; rw [← congrArg (fun r => r.2.trace) heq]; rfl)

/-- The only call of the token resolver is the file read. -/
theorem resolveTokenDataAction_trace (W : World σ) (filename : String) (s : St σ) :
    (resolveTokenDataAction W filename s).2.trace = s.trace ++ [Event.ReadFile filename] := by
  unfold resolveTokenDataAction
  split <;> (rename_i heq; rw [← congrArg (fun r => r.2.trace) heq]; rfl)

/-- The GCP key resolver makes calls of resolvers only. -/
theorem gcp_trace (W : World σ) (endpoint clusterName : String) (s : St σ) :
    ∃ evs, (resolveGCPKeyAction W endpoint clusterName s).2.trace = s.trace ++ evs ∧
      ∀ e ∈ evs, e.isResolverCall = true := by
  rcases hp : W.PromptPlaintext s.world (provisionPrompt endpoint clusterName) with ⟨rp, w1⟩
  cases rp with
  | error err =>
    rw [gcp_prompt_error W endpoint clusterName s err w1 hp]
    exact ⟨_, rfl, by simp [Event.isResolverCall]⟩
  | ok userResp =>
    by_cases hyes : strings_ToLower userResp = "y" ∨ strings_ToLower userResp = "yes"
    · rcases hagent : W.NewDefaultAgent w1 with ⟨agentOrNil, w2⟩
      rcases hproj : W.GetProjectIDForGKECluster w2 agentOrNil endpoint with ⟨rproj, w3⟩
      match rproj, hproj with
      | none, hproj =>
        rw [gcp_project_panic W endpoint clusterName s userResp w1 w2 w3 agentOrNil hp hyes
          hagent hproj]
        exact ⟨_, rfl, by simp [Event.isResolverCall]⟩
      | some (.error err), hproj =>
        rw [gcp_project_error W endpoint clusterName s userResp w1 w2 w3 agentOrNil err hp hyes
          hagent hproj]
        exact ⟨_, rfl, by simp [Event.isResolverCall]⟩
      | some (.ok projID), hproj =>
        cases agentOrNil with
        | none =>
          rw [gcp_nil_agent_panic W endpoint clusterName s userResp w1 w2 w3 projID hp hyes
            hagent hproj]
          exact ⟨_, rfl, by simp [Event.isResolverCall]⟩
        | some agent =>
          rcases hname : W.StringWithCharset w3 6 "abcdefghijklmnopqrstuvwxyz1234567890" with
            ⟨suffix, w4⟩
          rcases hcreate : W.CreateServiceAccount w4 { agent with ProjectID := projID }
            ("porter-dashboard-" ++ suffix) with ⟨rcreate, w5⟩
          cases rcreate with
          | error err =>
            rw [gcp_create_error W endpoint clusterName s userResp w1 w2 w3 w4 w5 agent projID
              suffix err hp hyes hagent hproj hname hcreate]
            obtain ⟨evs, htr, hman⟩ := manual_trace W endpoint clusterName
              (St.mk w5 (s.trace ++ (creationCalls endpoint clusterName agent projID suffix ++
                [Event.Print "Automatic creation failed.\n"])))
            refine ⟨creationCalls endpoint clusterName agent projID suffix ++
              [Event.Print "Automatic creation failed.\n"] ++ evs, ?_, ?_⟩
            · rw [htr]; simp
            · intro e he
              simp only [List.mem_append, creationCalls, List.mem_cons, List.mem_singleton,
                List.not_mem_nil, or_false] at he
              rcases he with (h1 | h1) | h1
              · rcases h1 with h1 | h1 | h1 | h1 | h1 <;> subst h1 <;> rfl
              · subst h1; rfl
              · exact isResolverCall_of_isManualCall e (hman e h1)
          | ok resp =>
            rcases hpolicy : W.SetServiceAccountIAMPolicy w5
              { agent with ProjectID := projID } resp with ⟨rpolicy, w6⟩
            cases rpolicy with
            | error err =>
              rw [gcp_policy_error W endpoint clusterName s userResp w1 w2 w3 w4 w5 w6 agent
                projID suffix resp err hp hyes hagent hproj hname hcreate hpolicy]
              exact ⟨_, rfl, by simp [creationCalls, Event.isResolverCall]⟩
            | ok u =>
              rcases hkey : W.CreateServiceAccountKey w6 { agent with ProjectID := projID }
                resp with ⟨rkey, w7⟩
              rw [gcp_key_result W endpoint clusterName s userResp w1 w2 w3 w4 w5 w6 w7 agent
                projID suffix resp rkey hp hyes hagent hproj hname hcreate hpolicy hkey]
              exact ⟨_, rfl, by simp [creationCalls, Event.isResolverCall]⟩
    · rw [gcp_not_affirmative W endpoint clusterName s userResp w1 hp hyes]
      obtain ⟨evs, htr, hman⟩ := manual_trace W endpoint clusterName
        (St.mk w1 (s.trace ++ [Event.PromptPlaintext (provisionPrompt endpoint clusterName)]))
      refine ⟨Event.PromptPlaintext (provisionPrompt endpoint clusterName) :: evs, ?_, ?_⟩
      · rw [htr]; simp
      · intro e he
        rcases List.mem_cons.1 he with h1 | h1
        · subst h1; rfl
        · exact isResolverCall_of_isManualCall e (hman e h1)

/-- The switch adds no finalize call to the trace. -/
theorem switchAction_finalizeCalls (W : World σ) (saCandidate : ServiceAccountCandidate)
    (action : ServiceAccountAction) (resolvers : List ServiceAccountAllActions) (s : St σ) :
    finalizeCalls (switchAction W saCandidate action resolvers s).2.trace =
      finalizeCalls s.trace := by
  have happ : ∀ r : Outcome ServiceAccountAllActions × St σ,
      (appendResolved resolvers r).2 = r.2 := by
    intro r
    obtain ⟨o, s1⟩ := r
    cases o <;> rfl
  unfold switchAction
  split
  · rw [happ, resolveClusterCAAction_trace, finalizeCalls_append]; simp [finalizeCalls]
  · rw [happ, resolveClientCertAction_trace, finalizeCalls_append]; simp [finalizeCalls]
  · rw [happ, resolveClientKeyAction_trace, finalizeCalls_append]; simp [finalizeCalls]
  · rw [happ, resolveOIDCIssuerAction_trace, finalizeCalls_append]; simp [finalizeCalls]
  · rw [happ, resolveTokenDataAction_trace, finalizeCalls_append]; simp [finalizeCalls]
  · obtain ⟨evs, htr, hres⟩ := gcp_trace W saCandidate.ClusterEndpoint
      saCandidate.ClusterName s
    rw [happ, htr, finalizeCalls_append, finalizeCalls_of_resolverCalls evs hres]
    simp
  · rfl
  · rfl

/-- The inner loop adds no finalize call to the trace. -/
theorem rangeActions_finalizeCalls (W : World σ) (saCandidate : ServiceAccountCandidate)
    (actions : List ServiceAccountAction) :
    ∀ (resolvers : List ServiceAccountAllActions) (s : St σ),
      finalizeCalls (rangeActions W saCandidate actions resolvers s).2.trace =
        finalizeCalls s.trace := by
  induction actions with
  | nil => intro resolvers s; rfl
  | cons action rest ih =>
    intro resolvers s
    have h := switchAction_finalizeCalls W saCandidate action resolvers s
    unfold rangeActions
    split
    · rename_i heq
      rw [ih, ← h, heq]
    · rename_i heq
      rw [← h, heq]
    · rename_i heq
      rw [← h, heq]

/-- Printing the clusters adds no finalize call to the trace. -/
theorem rangeClusters_finalizeCalls (sa : ServiceAccount) (clusters : List Cluster) :
    ∀ s : St σ, finalizeCalls (rangeClusters sa clusters s).trace = finalizeCalls s.trace := by
  induction clusters with
  | nil => intro s; rfl
  | cons cluster rest ih =>
    intro s
    simp [rangeClusters, ih, fmt_Printf, St.log, finalizeCalls_append, finalizeCalls]

/-- The inner loop over a list whose first part has been resolved goes on with
the rest of the list. -/
theorem rangeActions_append (W : World σ) (saCandidate : ServiceAccountCandidate)
    (before rest : List ServiceAccountAction) :
    ∀ (resolvers resolved : List ServiceAccountAllActions) (s s1 : St σ),
      rangeActions W saCandidate before resolvers s = (.ok resolved, s1) →
      rangeActions W saCandidate (before ++ rest) resolvers s =
        rangeActions W saCandidate rest resolved s1 := by
  induction before with
  | nil =>
    intro resolvers resolved s s1 h
    simp only [rangeActions, Prod.mk.injEq, Outcome.ok.injEq] at h
    obtain ⟨h1, h2⟩ := h
    subst h1 h2
    rfl
  | cons action more ih =>
    intro resolvers resolved s s1 h
    simp only [List.cons_append, rangeActions] at h ⊢
    split at h
    · exact ih _ _ _ _ h
    · simp at h
    · simp at h

/-- The outer loop over a list whose first candidates have been finalized goes
on with the rest of the list. -/
theorem rangeCandidates_append (W : World σ) (client projectID : Nat)
    (before rest : List ServiceAccountCandidate) :
    ∀ (s s1 : St σ),
      rangeCandidates W client projectID before s = (.ok (), s1) →
      rangeCandidates W client projectID (before ++ rest) s =
        rangeCandidates W client projectID rest s1 := by
  induction before with
  | nil =>
    intro s s1 h
    simp only [rangeCandidates, Prod.mk.injEq, true_and] at h
    subst h
    rfl
  | cons saCandidate more ih =>
    intro s s1 h
    simp only [List.cons_append, rangeCandidates] at h ⊢
    split at h
    · simp at h
    · simp at h
    · split at h
      · simp at h
      · exact ih _ _ h

/-- The finalize calls of a run of the outer loop that ends well: one for each
candidate, in the order of the list, with the project and the identifier of the
candidate. -/
theorem rangeCandidates_ok_finalizeCalls (W : World σ) (client projectID : Nat)
    (saCandidates : List ServiceAccountCandidate) :
    ∀ (s s1 : St σ),
      rangeCandidates W client projectID saCandidates s = (.ok (), s1) →
      ∃ calls, finalizeCalls s1.trace = finalizeCalls s.trace ++ calls ∧
        calls.map (fun call => (call.1, call.2.1)) =
          saCandidates.map (fun c => (projectID, c.ID)) := by
  induction saCandidates with
  | nil =>
    intro s s1 h
    simp only [rangeCandidates, Prod.mk.injEq, true_and] at h
    subst h
    exact ⟨[], by simp, rfl⟩
  | cons saCandidate more ih =>
    intro s s1 h
    simp only [rangeCandidates] at h
    split at h
    · simp at h
    · simp at h
    · rename_i resolvers sa1 heq
      have hacts := rangeActions_finalizeCalls W saCandidate saCandidate.Actions [] s
      rw [heq] at hacts
      split at h
      · simp at h
      · rename_i sa sa2 heq2
        obtain ⟨calls, hcalls, hids⟩ := ih _ _ h
        have hs2 : sa2.trace = sa1.trace ++
            [Event.CreateProjectServiceAccount projectID saCandidate.ID resolvers] := by
          rw [← congrArg (fun r => r.2.trace) heq2]; rfl
        refine ⟨(projectID, saCandidate.ID, resolvers) :: calls, ?_, ?_⟩
        · rw [hcalls, rangeClusters_finalizeCalls, hs2, finalizeCalls_append]
          simp only [] at hacts
          rw [hacts]
          simp [finalizeCalls]
        · simp [hids]

/-- The switch on a file-backed action whose file cannot be read: the error of
the read is returned after the read, and nothing is appended. -/
theorem switchAction_read_error (W : World σ) (saCandidate : ServiceAccountCandidate)
    (action : ServiceAccountAction) (resolvers : List ServiceAccountAllActions) (s : St σ)
    (err : CollabError) (w1 : σ) (hfile : action.Name.isFileBacked = true)
    (hread : W.ReadFile s.world action.Filename = (.error err, w1)) :
    switchAction W saCandidate action resolvers s =
      (.error (.collab err), St.mk w1 (s.trace ++ [Event.ReadFile action.Filename])) := by
  obtain ⟨name, filename⟩ := action
  cases name <;> simp [ActionName.isFileBacked] at hfile <;>
    simp [switchAction, appendResolved, resolveClusterCAAction, resolveClientCertAction,
      resolveClientKeyAction, resolveOIDCIssuerAction, resolveTokenDataAction,
      ioutil_ReadFile, St.log, hread]

/-- Once the project is set, the kubeconfig is read and the analysis has
answered, `Kubeconfig` is the outer loop over the candidates. -/
theorem Kubeconfig_eq_rangeCandidates (W : World σ) (kubeconfigPath : String)
    (contexts : List String) (host : String) (projectID : Nat) (s : St σ)
    (rawBytes : Bytes) (client : Nat) (w1 w2 w3 : σ)
    (saCandidates : List ServiceAccountCandidate) (hpid : projectID ≠ 0)
    (hkube : W.GetKubeconfigFromHost s.world kubeconfigPath contexts = (.ok rawBytes, w1))
    (hclient : W.NewClient w1 (host ++ "/api") "cookie.json" = (client, w2))
    (hcands : W.CreateProjectCandidates w2 client projectID (goString rawBytes) =
      (.ok saCandidates, w3)) :
    Kubeconfig W kubeconfigPath contexts host projectID s =
      rangeCandidates W client projectID saCandidates
        (St.mk w3 (s.trace ++ [Event.GetKubeconfigFromHost kubeconfigPath contexts,
          Event.NewClient (host ++ "/api") "cookie.json",
          Event.CreateProjectCandidates projectID (goString rawBytes)])) := by
  simp [Kubeconfig, hpid, local_GetKubeconfigFromHost, api_NewClient,
    client_CreateProjectCandidates, St.log, hkube, hclient, hcands]

/-- The registry on a file-backed action whose file cannot be read: the
resolver returns the error of the read. -/
theorem resolverOf_read_error (W : World σ) (saCandidate : ServiceAccountCandidate)
    (action : ServiceAccountAction) (s : St σ) (err : CollabError) (w1 : σ)
    (hfile : action.Name.isFileBacked = true)
    (hread : W.ReadFile s.world action.Filename = (.error err, w1)) :
    ∃ resolve, resolverOf W saCandidate action = some resolve ∧
      resolve s =
        (.error (.collab err), St.mk w1 (s.trace ++ [Event.ReadFile action.Filename])) := by
  obtain ⟨name, filename⟩ := action
  cases name <;> simp [ActionName.isFileBacked] at hfile <;>
    simp [resolverOf, resolveClusterCAAction, resolveClientCertAction,
      resolveClientKeyAction, resolveOIDCIssuerAction, resolveTokenDataAction,
      ioutil_ReadFile, St.log, hread]

/-- The switch is the registry followed by the append step. -/
theorem switchAction_resolverOf (W : World σ) (saCandidate : ServiceAccountCandidate)
    (action : ServiceAccountAction) (resolvers : List ServiceAccountAllActions) (s : St σ) :
    switchAction W saCandidate action resolvers s =
      match resolverOf W saCandidate action with
      | none => (.ok resolvers, s)
      | some resolve => appendResolved resolvers (resolve s) := by
  obtain ⟨name, filename⟩ := action
  cases name <;> rfl

/-- When every resolution succeeds, the inner loop returns the resolutions
behind what was accumulated before. -/
theorem resolutions_rangeActions (W : World σ) (saCandidate : ServiceAccountCandidate)
    (actions : List ServiceAccountAction) :
    ∀ (s s1 : St σ) (resolved resolvers : List ServiceAccountAllActions),
      resolutions W saCandidate actions s = some (resolved, s1) →
      rangeActions W saCandidate actions resolvers s = (.ok (resolvers ++ resolved), s1) := by
  induction actions with
  | nil =>
    intro s s1 resolved resolvers h
    simp only [resolutions, Option.some.injEq, Prod.mk.injEq] at h
    obtain ⟨h1, h2⟩ := h
    subst h1 h2
    simp [rangeActions]
  | cons action rest ih =>
    intro s s1 resolved resolvers h
    simp only [resolutions] at h
    simp only [rangeActions, switchAction_resolverOf]
    split at h
    · exact ih _ _ _ _ h
    · split at h
      · rename_i r s2 heq2
        split at h
        · rename_i others s3 heq3
          simp only [Option.some.injEq, Prod.mk.injEq] at h
          obtain ⟨h1, h2⟩ := h
          subst h1 h2
          simp only [heq2, appendResolved]
          rw [ih _ _ _ _ heq3]
          simp
        · simp at h
      · simp at h
      · simp at h

/-- A Resolved Action returned by the manual path has kind `GCPKeyData`. -/
theorem manual_ok_name (W : World σ) (endpoint clusterName : String) (s s1 : St σ)
    (r : ServiceAccountAllActions)
    (h : resolveGCPKeyActionManual W endpoint clusterName s = (.ok r, s1)) :
    r.Name = .GCPKeyDataAction := by
  unfold resolveGCPKeyActionManual at h
  split at h
  · simp at h
  · split at h
    split at h
    · simp at h
    · split at h
      · simp at h
      · simp only [Prod.mk.injEq, Outcome.ok.injEq] at h
        rw [← h.1]
    · simp at h

/-- A Resolved Action returned by the GCP key resolver has kind `GCPKeyData`. -/
theorem gcp_ok_name (W : World σ) (endpoint clusterName : String) (s s1 : St σ)
    (r : ServiceAccountAllActions)
    (h : resolveGCPKeyAction W endpoint clusterName s = (.ok r, s1)) :
    r.Name = .GCPKeyDataAction := by
  unfold resolveGCPKeyAction at h
  split at h
  · simp at h
  · split at h
    · split at h
      split at h
      · simp at h
      · simp at h
      · split at h
        · simp at h
        · split at h
          split at h
          · exact manual_ok_name _ _ _ _ _ _ h
          · split at h
            · simp at h
            · split at h
              · simp at h
              · simp only [Prod.mk.injEq, Outcome.ok.injEq] at h
                rw [← h.1]
    · exact manual_ok_name _ _ _ _ _ _ h

/-- A Resolved Action has the kind of the action it resolves. -/
theorem resolverOf_ok_name (W : World σ) (saCandidate : ServiceAccountCandidate)
    (action : ServiceAccountAction) (s s1 : St σ) (r : ServiceAccountAllActions)
    (resolve : St σ → Outcome ServiceAccountAllActions × St σ)
    (hres : resolverOf W saCandidate action = some resolve) (h : resolve s = (.ok r, s1)) :
    r.Name = action.Name := by
  obtain ⟨name, filename⟩ := action
  cases name <;> simp only [resolverOf, Option.some.injEq] at hres
  case GCPKeyDataAction =>
    subst hres
    exact gcp_ok_name _ _ _ _ _ _ h
  case AWSKeyDataAction => simp at hres
  case other tag => simp at hres
  all_goals
    subst hres
    first
      | unfold resolveClusterCAAction at h
      | unfold resolveClientCertAction at h
      | unfold resolveClientKeyAction at h
      | unfold resolveOIDCIssuerAction at h
      | unfold resolveTokenDataAction at h
    split at h
    · simp at h
    · simp only [Prod.mk.injEq, Outcome.ok.injEq] at h
      rw [← h.1]

/-- The kinds of the resolutions of a list of actions with kinds in the fixed
set: the kinds of the actions, in order, without `AWSKeyData`. -/
theorem resolutions_names (W : World σ) (saCandidate : ServiceAccountCandidate)
    (actions : List ServiceAccountAction) :
    ∀ (s s1 : St σ) (resolved : List ServiceAccountAllActions),
      resolutions W saCandidate actions s = some (resolved, s1) →
      (∀ a ∈ actions, a.Name.inFixedSet = true) →
      resolved.map (fun r => r.Name) =
        (actions.map (fun a => a.Name)).filter
          (fun n => decide (n ≠ ActionName.AWSKeyDataAction)) := by
  induction actions with
  | nil =>
    intro s s1 resolved h _
    simp only [resolutions, Option.some.injEq, Prod.mk.injEq] at h
    rw [← h.1]
    rfl
  | cons action rest ih =>
    intro s s1 resolved h hkinds
    have hrest : ∀ a ∈ rest, a.Name.inFixedSet = true :=
      fun a ha => hkinds a (List.mem_cons_of_mem _ ha)
    have hact := hkinds action (List.mem_cons_self _ _)
    simp only [resolutions] at h
    split at h
    · rename_i hnone
      have hname : action.Name = .AWSKeyDataAction := by
        obtain ⟨name, filename⟩ := action
        cases name <;> simp_all [resolverOf, ActionName.inFixedSet]
      rw [ih _ _ _ h hrest]
      simp [hname]
    · rename_i resolve hsome
      have hne : action.Name ≠ .AWSKeyDataAction := by
        intro hname
        obtain ⟨name, filename⟩ := action
        simp only at hname
        subst hname
        simp [resolverOf] at hsome
      split at h
      · rename_i r s2 heq2
        split at h
        · rename_i others s3 heq3
          simp only [Option.some.injEq, Prod.mk.injEq] at h
          rw [← h.1]
          have hr := resolverOf_ok_name W saCandidate action s s2 r resolve hsome heq2
          simp [hr, hne, ih _ _ _ heq3 hrest]
        · simp at h
      · simp at h
      · simp at h

/-- The resolutions of the actions of a candidate with kinds in the fixed set
make a finalize call of the shape that the claim on a successful pass
describes. -/
theorem resolutions_finalizesCandidate (W : World σ) (projectID : Nat)
    (saCandidate : ServiceAccountCandidate) (s s1 : St σ)
    (resolved : List ServiceAccountAllActions)
    (h : resolutions W saCandidate saCandidate.Actions s = some (resolved, s1))
    (hkinds : ∀ a ∈ saCandidate.Actions, a.Name.inFixedSet = true) :
    FinalizesCandidate projectID saCandidate (projectID, saCandidate.ID, resolved) := by
  have hnames := resolutions_names W saCandidate saCandidate.Actions s s1 resolved h hkinds
  refine ⟨rfl, rfl, hnames, ?_⟩
  have hlen := congrArg List.length hnames
  rw [List.length_map, List.filter_map, List.length_map] at hlen
  exact hlen

/-- A successful pass as the specification describes it is a run of the outer
loop that ends well, and its finalize requests are the finalize calls of the
run. -/
theorem successfulPass_rangeCandidates (W : World σ) (client projectID : Nat)
    (saCandidates : List ServiceAccountCandidate) :
    ∀ (s s1 : St σ) (calls : List (Nat × Nat × List ServiceAccountAllActions)),
      successfulPass W client projectID saCandidates s = some (calls, s1) →
      rangeCandidates W client projectID saCandidates s = (.ok (), s1) ∧
      finalizeCalls s1.trace = finalizeCalls s.trace ++ calls ∧
      ((∀ c ∈ saCandidates, ∀ a ∈ c.Actions, a.Name.inFixedSet = true) →
        List.Forall₂
          (fun c call => FinalizesCandidate projectID c call ∧
            ∃ sb se, resolutions W c c.Actions sb = some (call.2.2, se))
          saCandidates calls) := by
  induction saCandidates with
  | nil =>
    intro s s1 calls h
    simp only [successfulPass, Option.some.injEq, Prod.mk.injEq] at h
    obtain ⟨h1, h2⟩ := h
    subst h1 h2
    exact ⟨rfl, by simp, fun _ => List.Forall₂.nil⟩
  | cons saCandidate rest ih =>
    intro s s1 calls h
    simp only [successfulPass] at h
    split at h
    · simp at h
    · rename_i resolved sa1 hres
      split at h
      · simp at h
      · rename_i sa sa2 hfin
        split at h
        · simp at h
        · rename_i more s3 hrest
          simp only [Option.some.injEq, Prod.mk.injEq] at h
          obtain ⟨h1, h2⟩ := h
          subst h1 h2
          obtain ⟨hrun, htrace, hshape⟩ := ih _ _ _ hrest
          have hacts := resolutions_rangeActions W saCandidate saCandidate.Actions s sa1
            resolved [] hres
          simp only [List.nil_append] at hacts
          have hs2 : sa2.trace = sa1.trace ++
              [Event.CreateProjectServiceAccount projectID saCandidate.ID resolved] := by
            rw [← congrArg (fun r => r.2.trace) hfin]; rfl
          have hfc := rangeActions_finalizeCalls W saCandidate saCandidate.Actions [] s
          rw [hacts] at hfc
          simp only [] at hfc
          refine ⟨?_, ?_, ?_⟩
          · simp only [rangeCandidates, hacts, hfin, hrun]
          · rw [htrace, rangeClusters_finalizeCalls, hs2, finalizeCalls_append, hfc]
            simp [finalizeCalls]
          · intro hkinds
            refine List.Forall₂.cons ⟨?_, s, sa1, hres⟩
              (hshape (fun c hc => hkinds c (List.mem_cons_of_mem _ hc)))
            exact resolutions_finalizesCandidate W projectID saCandidate s sa1 resolved hres
              (hkinds saCandidate (List.mem_cons_self _ _))

/-- With a usable agent, after an affirmative answer, the automatic path that
gets past the account creation is decided by its first failing step, and the
key-file prompt of the manual path is not among its calls. If the project
cannot be resolved
the resolver returns that error after three calls (prompt, agent construction,
project resolution): no create-account, set-IAM-policy or create-key call. If
setting the IAM policy fails it returns that error and makes no create-key
call. If creating the key fails it returns that error. If all four steps
succeed it returns a Resolved Action of kind `GCPKeyData` whose `GCPKeyData`
field is the text of the bytes returned by the create-key call, unencoded, with
every other payload field empty. -/
theorem automatic_path_with_agent (W : World σ) (endpoint clusterName : String)
    (s : St σ) (userResp : String) (w1 w2 : σ) (agent : Agent)
    (hp : W.PromptPlaintext s.world (provisionPrompt endpoint clusterName) =
      (.ok userResp, w1))
    (hyes : strings_ToLower userResp = "y" ∨ strings_ToLower userResp = "yes")
    (hagent : W.NewDefaultAgent w1 = (some agent, w2)) :
    provisionPrompt endpoint clusterName ≠ keyFilePrompt ∧
    (∀ (err : CollabError) (w3 : σ),
      W.GetProjectIDForGKECluster w2 (some agent) endpoint = (some (.error err), w3) →
      resolveGCPKeyAction W endpoint clusterName s =
        (.error (.collab err),
          St.mk w3 (s.trace ++ [Event.PromptPlaintext (provisionPrompt endpoint clusterName),
            Event.NewDefaultAgent, Event.GetProjectIDForGKECluster endpoint]))) ∧
    (∀ (projID suffix : String) (resp : Nat) (w3 w4 w5 : σ),
      W.GetProjectIDForGKECluster w2 (some agent) endpoint = (some (.ok projID), w3) →
      W.StringWithCharset w3 6 "abcdefghijklmnopqrstuvwxyz1234567890" = (suffix, w4) →
      W.CreateServiceAccount w4 { agent with ProjectID := projID }
        ("porter-dashboard-" ++ suffix) = (.ok resp, w5) →
      (∀ (err : CollabError) (w6 : σ),
        W.SetServiceAccountIAMPolicy w5 { agent with ProjectID := projID } resp =
          (.error err, w6) →
        resolveGCPKeyAction W endpoint clusterName s =
          (.error (.collab err),
            St.mk w6 (s.trace ++ (creationCalls endpoint clusterName agent projID suffix ++
              [Event.SetServiceAccountIAMPolicy { agent with ProjectID := projID } resp])))) ∧
      (∀ (w6 : σ),
        W.SetServiceAccountIAMPolicy w5 { agent with ProjectID := projID } resp =
          (.ok (), w6) →
        (∀ (err : CollabError) (w7 : σ),
          W.CreateServiceAccountKey w6 { agent with ProjectID := projID } resp =
            (.error err, w7) →
          resolveGCPKeyAction W endpoint clusterName s =
            (.error (.collab err),
              St.mk w7 (s.trace ++ (creationCalls endpoint clusterName agent projID suffix ++
                [Event.SetServiceAccountIAMPolicy { agent with ProjectID := projID } resp,
                 Event.CreateServiceAccountKey { agent with ProjectID := projID } resp])))) ∧
        (∀ (bytes : Bytes) (w7 : σ),
          W.CreateServiceAccountKey w6 { agent with ProjectID := projID } resp =
            (.ok bytes, w7) →
          resolveGCPKeyAction W endpoint clusterName s =
            (.ok { Name := .GCPKeyDataAction, GCPKeyData := goString bytes,
                   ClusterCAData := "", ClientCertData := "", ClientKeyData := "",
                   OIDCIssuerCAData := "", TokenData := "" },
              St.mk w7 (s.trace ++ (creationCalls endpoint clusterName agent projID suffix ++
                [Event.SetServiceAccountIAMPolicy { agent with ProjectID := projID } resp,
                 Event.CreateServiceAccountKey { agent with ProjectID := projID }
                   resp])))))) := by
  refine ⟨provisionPrompt_ne_keyFilePrompt endpoint clusterName, ?_, ?_⟩
  · intro err w3 hproj
    exact gcp_project_error W endpoint clusterName s userResp w1 w2 w3 (some agent) err hp
      hyes hagent hproj
  · intro projID suffix resp w3 w4 w5 hproj hname hcreate
    refine ⟨?_, ?_⟩
    · intro err w6 hpolicy
      exact gcp_policy_error W endpoint clusterName s userResp w1 w2 w3 w4 w5 w6 agent projID
        suffix resp err hp hyes hagent hproj hname hcreate hpolicy
    · intro w6 hpolicy
      refine ⟨?_, ?_⟩
      · intro err w7 hkey
        exact gcp_key_result W endpoint clusterName s userResp w1 w2 w3 w4 w5 w6 w7 agent
          projID suffix resp (.error err) hp hyes hagent hproj hname hcreate hpolicy hkey
      · intro bytes w7 hkey
        exact gcp_key_result W endpoint clusterName s userResp w1 w2 w3 w4 w5 w6 w7 agent
          projID suffix resp (.ok bytes) hp hyes hagent hproj hname hcreate hpolicy hkey

/-! ## The claims -/

/-- C10: with project identifier 0 `Kubeconfig` returns the configuration error
"no project set, please run porter project set [id]" and leaves the state of
the run as it was, so it made no call at all (no file read, no RPC, no prompt,
no agent call); and `Kubeconfig` returns this configuration error only when the
project identifier is 0. -/
theorem Kubeconfig_project_zero (W : World σ) (kubeconfigPath : String)
    (contexts : List String) (host : String) (projectID : Nat) (s : St σ) :
    Kubeconfig W kubeconfigPath contexts host 0 s = (.error .noProjectSet, s) ∧
    GoError.noProjectSet.Error = "no project set, please run porter project set [id]" ∧
    ((Kubeconfig W kubeconfigPath contexts host projectID s).1 = .error .noProjectSet ↔
      projectID = 0) := by
  refine ⟨by simp [Kubeconfig], rfl, ?_, ?_⟩
  · intro h
    by_contra hne
    unfold Kubeconfig at h
    rw [if_neg hne] at h
    revert h
    split
    · simp
    · split
      split
      · simp
      · exact rangeCandidates_ne_noProjectSet _ _ _ _ _
  · intro h
    subst h
    simp [Kubeconfig]

/-- C6: when the file read succeeds with bytes `b`, each of the five file-backed
resolvers returns a Resolved Action that carries the resolver's own kind, has
the standard padded base64 encoding of `b` in the payload field of that kind
(`ClusterCAData`, `ClientCertData`, `ClientKeyData`, `OIDCIssuerCAData`) or `b`
itself as text in `TokenData`, and has every other payload field empty; the
only call made is the file read. -/
theorem file_backed_resolvers_payload (W : World σ) (filename : String) (s : St σ)
    (b : Bytes) (w1 : σ) (hread : W.ReadFile s.world filename = (.ok b, w1)) :
    resolveClusterCAAction W filename s =
      (.ok { Name := .ClusterCADataAction,
             ClusterCAData := base64_StdEncoding_EncodeToString b,
             ClientCertData := "", ClientKeyData := "", OIDCIssuerCAData := "",
             TokenData := "", GCPKeyData := "" },
        St.mk w1 (s.trace ++ [Event.ReadFile filename])) ∧
    resolveClientCertAction W filename s =
      (.ok { Name := .ClientCertDataAction,
             ClientCertData := base64_StdEncoding_EncodeToString b,
             ClusterCAData := "", ClientKeyData := "", OIDCIssuerCAData := "",
             TokenData := "", GCPKeyData := "" },
        St.mk w1 (s.trace ++ [Event.ReadFile filename])) ∧
    resolveClientKeyAction W filename s =
      (.ok { Name := .ClientKeyDataAction,
             ClientKeyData := base64_StdEncoding_EncodeToString b,
             ClusterCAData := "", ClientCertData := "", OIDCIssuerCAData := "",
             TokenData := "", GCPKeyData := "" },
        St.mk w1 (s.trace ++ [Event.ReadFile filename])) ∧
    resolveOIDCIssuerAction W filename s =
      (.ok { Name := .OIDCIssuerDataAction,
             OIDCIssuerCAData := base64_StdEncoding_EncodeToString b,
             ClusterCAData := "", ClientCertData := "", ClientKeyData := "",
             TokenData := "", GCPKeyData := "" },
        St.mk w1 (s.trace ++ [Event.ReadFile filename])) ∧
    resolveTokenDataAction W filename s =
      (.ok { Name := .TokenDataAction,
             TokenData := goString b,
             ClusterCAData := "", ClientCertData := "", ClientKeyData := "",
             OIDCIssuerCAData := "", GCPKeyData := "" },
        St.mk w1 (s.trace ++ [Event.ReadFile filename])) := by
  simp [resolveClusterCAAction, resolveClientCertAction, resolveClientKeyAction,
    resolveOIDCIssuerAction, resolveTokenDataAction, ioutil_ReadFile, St.log, hread]

/-- C6 at a concrete input: the file `ca.pem` holds the bytes of `Man`, whose
base64 encoding is `TWFu`. -/
theorem file_backed_resolvers_payload_witness :
    resolveClusterCAAction (demo []).world "ca.pem" (start []) =
      (.ok { Name := .ClusterCADataAction, ClusterCAData := "TWFu" },
        St.mk [] [Event.ReadFile "ca.pem"]) ∧
    resolveTokenDataAction (demo []).world "ca.pem" (start []) =
      (.ok { Name := .TokenDataAction, TokenData := "Man" },
        St.mk [] [Event.ReadFile "ca.pem"]) :=
  have h := file_backed_resolvers_payload (demo []).world "ca.pem" (start [])
    [77, 97, 110] [] rfl
  ⟨h.1, h.2.2.2.2⟩

/-- C2, as stated, fails: the first prompt cannot be read and the terminal
would answer the next prompt with the path of a readable key file. The resolver
returns the prompt error after the single provisioning prompt; the manual path,
had it been taken, would have returned a Resolved Action. -/
theorem prompt_error_not_manual_counterexample :
    resolveGCPKeyAction (demo []).world "https://10.0.0.1" "gke"
        (start [.error eof, .ok "key.json"]) =
      (.error (.collab eof),
        St.mk [.ok "key.json"]
          [Event.PromptPlaintext (provisionPrompt "https://10.0.0.1" "gke")]) ∧
    resolveGCPKeyActionManual (demo []).world "https://10.0.0.1" "gke"
        (St.mk [.ok "key.json"]
          [Event.PromptPlaintext (provisionPrompt "https://10.0.0.1" "gke")]) =
      (.ok { Name := .GCPKeyDataAction, GCPKeyData := "key" },
        St.mk []
          [Event.PromptPlaintext (provisionPrompt "https://10.0.0.1" "gke"),
           Event.PromptPlaintext keyFilePrompt, Event.Stat "key.json",
           Event.ReadFile "key.json"]) :=
  ⟨rfl, rfl⟩

/-- C2, amended: every answer to the provisioning prompt that was read and whose
lowercase form is neither "y" nor "yes" routes to the manual path, which runs
right after the prompt; when reading the prompt fails, the resolver returns the
prompt error and makes no further call. -/
theorem prompt_outcome_routing (W : World σ) (endpoint clusterName : String) (s : St σ) :
    (∀ (userResp : String) (w1 : σ),
      W.PromptPlaintext s.world (provisionPrompt endpoint clusterName) = (.ok userResp, w1) →
      ¬(strings_ToLower userResp = "y" ∨ strings_ToLower userResp = "yes") →
      resolveGCPKeyAction W endpoint clusterName s =
        resolveGCPKeyActionManual W endpoint clusterName
          (St.mk w1
            (s.trace ++ [Event.PromptPlaintext (provisionPrompt endpoint clusterName)]))) ∧
    (∀ (err : CollabError) (w1 : σ),
      W.PromptPlaintext s.world (provisionPrompt endpoint clusterName) = (.error err, w1) →
      resolveGCPKeyAction W endpoint clusterName s =
        (.error (.collab err),
          St.mk w1
            (s.trace ++ [Event.PromptPlaintext (provisionPrompt endpoint clusterName)]))) :=
  ⟨fun userResp w1 hp hno => gcp_not_affirmative W endpoint clusterName s userResp w1 hp hno,
   fun err w1 hp => gcp_prompt_error W endpoint clusterName s err w1 hp⟩

/-- C2, amended, at concrete inputs: the answer "no" leads to the manual path,
and a prompt that cannot be read ends the resolver with the prompt error. -/
theorem prompt_outcome_routing_witness :
    resolveGCPKeyAction (demo []).world "https://10.0.0.1" "gke"
        (start [.ok "no", .ok "key.json"]) =
      resolveGCPKeyActionManual (demo []).world "https://10.0.0.1" "gke"
        (St.mk [.ok "key.json"]
          [Event.PromptPlaintext (provisionPrompt "https://10.0.0.1" "gke")]) ∧
    resolveGCPKeyAction (demo []).world "https://10.0.0.1" "gke"
        (start [.error eof, .ok "key.json"]) =
      (.error (.collab eof),
        St.mk [.ok "key.json"]
          [Event.PromptPlaintext (provisionPrompt "https://10.0.0.1" "gke")]) :=
  ⟨(prompt_outcome_routing (demo []).world "https://10.0.0.1" "gke"
      (start [.ok "no", .ok "key.json"])).1 "no" [.ok "key.json"] rfl (by decide),
   (prompt_outcome_routing (demo []).world "https://10.0.0.1" "gke"
      (start [.error eof, .ok "key.json"])).2 eof [.ok "key.json"] rfl⟩

/-- C3, the failing input: the path entered at the key-file prompt lies below a
regular file, so `os.Stat` fails with an error that is not a not-found error.
The condition then calls `IsDir` on the nil `FileInfo` and the resolver panics
instead of returning an error. On a missing path and on a directory the
resolver returns the error "Key file not found", as the claim says. -/
theorem manual_stat_error_panics :
    (demo []).world.Stat [] "ca.pem/key.json" = (.error enotdir, []) ∧
    os_IsNotExist (some enotdir) = false ∧
    resolveGCPKeyActionManual (demo []).world "https://10.0.0.1" "gke"
        (start [.ok "ca.pem/key.json"]) =
      (.panic, St.mk [] [Event.PromptPlaintext keyFilePrompt, Event.Stat "ca.pem/key.json"]) ∧
    resolveGCPKeyActionManual (demo []).world "https://10.0.0.1" "gke"
        (start [.ok "missing.json"]) =
      (.error .keyFileNotFound,
        St.mk [] [Event.PromptPlaintext keyFilePrompt, Event.Stat "missing.json"]) ∧
    resolveGCPKeyActionManual (demo []).world "https://10.0.0.1" "gke" (start [.ok "dir"]) =
      (.error .keyFileNotFound,
        St.mk [] [Event.PromptPlaintext keyFilePrompt, Event.Stat "dir"]) ∧
    GoError.keyFileNotFound.Error = "Key file not found" :=
  ⟨rfl, rfl, rfl, rfl, rfl, rfl⟩

/-- C4: after an affirmative answer and a resolved project, when the creation
of the service account fails the resolver prints "Automatic creation failed."
and its result is the result of the manual path for the same endpoint and
cluster name, whatever the creation error was; the calls of the whole run
contain no set-IAM-policy call and no create-key call. The creation is called
through the agent after the assignment to its `ProjectID`, so in a run that
makes this call the agent is not nil. -/
theorem create_failure_falls_back (W : World σ) (endpoint clusterName : String) (s : St σ)
    (userResp : String) (w1 w2 w3 w4 w5 : σ) (agent : Agent) (projID suffix : String)
    (err : CollabError)
    (hp : W.PromptPlaintext s.world (provisionPrompt endpoint clusterName) = (.ok userResp, w1))
    (hyes : strings_ToLower userResp = "y" ∨ strings_ToLower userResp = "yes")
    (hagent : W.NewDefaultAgent w1 = (some agent, w2))
    (hproj : W.GetProjectIDForGKECluster w2 (some agent) endpoint = (some (.ok projID), w3))
    (hname : W.StringWithCharset w3 6 "abcdefghijklmnopqrstuvwxyz1234567890" = (suffix, w4))
    (hcreate : W.CreateServiceAccount w4 { agent with ProjectID := projID }
      ("porter-dashboard-" ++ suffix) = (.error err, w5)) :
    resolveGCPKeyAction W endpoint clusterName s =
      resolveGCPKeyActionManual W endpoint clusterName
        (St.mk w5 (s.trace ++ (creationCalls endpoint clusterName agent projID suffix ++
          [Event.Print "Automatic creation failed.\n"]))) ∧
    ∃ evs, (resolveGCPKeyAction W endpoint clusterName s).2.trace = s.trace ++ evs ∧
      ∀ e ∈ evs, e.isPolicyOrKeyCall = false := by
  have h := gcp_create_error W endpoint clusterName s userResp w1 w2 w3 w4 w5 agent projID
    suffix err hp hyes hagent hproj hname hcreate
  refine ⟨h, ?_⟩
  obtain ⟨evs, htr, hman⟩ := manual_trace W endpoint clusterName
    (St.mk w5 (s.trace ++ (creationCalls endpoint clusterName agent projID suffix ++
      [Event.Print "Automatic creation failed.\n"])))
  refine ⟨creationCalls endpoint clusterName agent projID suffix ++
    [Event.Print "Automatic creation failed.\n"] ++ evs, ?_, ?_⟩
  · rw [h, htr]; simp
  · intro e he
    simp only [List.mem_append, creationCalls, List.mem_cons, List.mem_singleton,
      List.not_mem_nil, or_false] at he
    rcases he with (h1 | h1) | h1
    · rcases h1 with h1 | h1 | h1 | h1 | h1 <;> subst h1 <;> rfl
    · subst h1; rfl
    · exact isPolicyOrKeyCall_of_isManualCall e (hman e h1)

/-- C4 at a concrete input: the user answers "Y", the agent cannot create the
account, and the key file named at the manual prompt is what the resolver
returns. -/
theorem create_failure_falls_back_witness :
    resolveGCPKeyAction demoCreateFails.world "https://10.0.0.1" "gke"
        (start [.ok "Y", .ok "key.json"]) =
      resolveGCPKeyActionManual demoCreateFails.world "https://10.0.0.1" "gke"
        (St.mk [.ok "key.json"]
          (creationCalls "https://10.0.0.1" "gke" (Agent.mk 7 "") "my-project" "abc123" ++
            [Event.Print "Automatic creation failed.\n"])) ∧
    ∃ evs, (resolveGCPKeyAction demoCreateFails.world "https://10.0.0.1" "gke"
        (start [.ok "Y", .ok "key.json"])).2.trace = [] ++ evs ∧
      ∀ e ∈ evs, e.isPolicyOrKeyCall = false :=
  create_failure_falls_back demoCreateFails.world "https://10.0.0.1" "gke"
    (start [.ok "Y", .ok "key.json"]) "Y" [.ok "key.json"] [.ok "key.json"] [.ok "key.json"]
    [.ok "key.json"] [.ok "key.json"] (Agent.mk 7 "") "my-project" "abc123"
    (CollabError.mk "quota exceeded" false) rfl (by decide) rfl rfl rfl rfl

/-- C5: for an answer whose lowercase form is neither "y" nor "yes" the result
of `resolveGCPKeyAction` is the result of the manual path run right after the
prompt, and the run makes no call to the cloud-provider agent (no construction,
project resolution, account creation, IAM binding or key minting); for an
answer whose lowercase form is "y" or "yes" the run enters the automatic path:
right after the prompt it constructs the agent and resolves the project. The
answers "n", "no", "N", "" and " yes" are of the first sort, and "Y", "YES" and
"Yes" of the second. -/
theorem response_decides_path (W : World σ) (endpoint clusterName : String) (s : St σ)
    (userResp : String) (w1 : σ)
    (hp : W.PromptPlaintext s.world (provisionPrompt endpoint clusterName) =
      (.ok userResp, w1)) :
    (¬(strings_ToLower userResp = "y" ∨ strings_ToLower userResp = "yes") →
      resolveGCPKeyAction W endpoint clusterName s =
        resolveGCPKeyActionManual W endpoint clusterName
          (St.mk w1
            (s.trace ++ [Event.PromptPlaintext (provisionPrompt endpoint clusterName)])) ∧
      ∃ evs, (resolveGCPKeyAction W endpoint clusterName s).2.trace = s.trace ++ evs ∧
        ∀ e ∈ evs, e.isAgentCall = false) ∧
    ((strings_ToLower userResp = "y" ∨ strings_ToLower userResp = "yes") →
      ∃ evs, (resolveGCPKeyAction W endpoint clusterName s).2.trace =
        s.trace ++ Event.PromptPlaintext (provisionPrompt endpoint clusterName) ::
          Event.NewDefaultAgent :: Event.GetProjectIDForGKECluster endpoint :: evs) ∧
    (∀ r ∈ ["n", "no", "N", "", " yes"],
      ¬(strings_ToLower r = "y" ∨ strings_ToLower r = "yes")) ∧
    (∀ r ∈ ["Y", "YES", "Yes", "y", "yes"],
      strings_ToLower r = "y" ∨ strings_ToLower r = "yes") := by
  refine ⟨?_, gcp_affirmative_trace W endpoint clusterName s userResp w1 hp, by decide,
    by decide⟩
  intro hno
  have h := gcp_not_affirmative W endpoint clusterName s userResp w1 hp hno
  refine ⟨h, ?_⟩
  obtain ⟨evs, htr, hman⟩ := manual_trace W endpoint clusterName
    (St.mk w1 (s.trace ++ [Event.PromptPlaintext (provisionPrompt endpoint clusterName)]))
  refine ⟨Event.PromptPlaintext (provisionPrompt endpoint clusterName) :: evs, ?_, ?_⟩
  · rw [h, htr]; simp
  · intro e he
    rcases List.mem_cons.1 he with h1 | h1
    · subst h1; rfl
    · exact isAgentCall_of_isManualCall e (hman e h1)

/-- C5 at concrete inputs: the answer " yes", with a leading blank, runs the
manual path, and the answer "YES" runs the automatic path. -/
theorem response_decides_path_witness :
    resolveGCPKeyAction (demo []).world "https://10.0.0.1" "gke"
        (start [.ok " yes", .ok "key.json"]) =
      resolveGCPKeyActionManual (demo []).world "https://10.0.0.1" "gke"
        (St.mk [.ok "key.json"]
          ([] ++ [Event.PromptPlaintext (provisionPrompt "https://10.0.0.1" "gke")])) ∧
    ∃ evs, (resolveGCPKeyAction (demo []).world "https://10.0.0.1" "gke"
        (start [.ok "YES"])).2.trace =
      [] ++ Event.PromptPlaintext (provisionPrompt "https://10.0.0.1" "gke") ::
        Event.NewDefaultAgent :: Event.GetProjectIDForGKECluster "https://10.0.0.1" :: evs :=
  ⟨((response_decides_path (demo []).world "https://10.0.0.1" "gke"
      (start [.ok " yes", .ok "key.json"]) " yes" [.ok "key.json"] rfl).1 (by decide)).1,
   (response_decides_path (demo []).world "https://10.0.0.1" "gke"
      (start [.ok "YES"]) "YES" [] rfl).2.1 (by decide)⟩

/-- C9, the failing input: the user answers "yes" on a machine where the agent
cannot be constructed, so `gcpLocal.NewDefaultAgent` leaves a nil agent and an
error that the code drops. The resolver goes on through the nil agent and
panics instead of returning an error or a Resolved Action: at the assignment
`agent.ProjectID = projID` when the method called through the nil agent
answers, and at that call when the method itself panics. With a usable agent
and the same answer the resolver returns the key as the claim says. -/
theorem nil_agent_panics :
    demoNoAgent.world.NewDefaultAgent [] = (none, []) ∧
    resolveGCPKeyAction demoNoAgent.world "https://10.0.0.1" "gke" (start [.ok "yes"]) =
      (.panic,
        St.mk []
          [Event.PromptPlaintext (provisionPrompt "https://10.0.0.1" "gke"),
           Event.NewDefaultAgent, Event.GetProjectIDForGKECluster "https://10.0.0.1"]) ∧
    resolveGCPKeyAction demoNilReceiver.world "https://10.0.0.1" "gke" (start [.ok "yes"]) =
      (.panic,
        St.mk []
          [Event.PromptPlaintext (provisionPrompt "https://10.0.0.1" "gke"),
           Event.NewDefaultAgent, Event.GetProjectIDForGKECluster "https://10.0.0.1"]) ∧
    resolveGCPKeyAction (demo []).world "https://10.0.0.1" "gke" (start [.ok "yes"]) =
      (.ok { Name := .GCPKeyDataAction, GCPKeyData := "sa" },
        St.mk []
          (creationCalls "https://10.0.0.1" "gke" (Agent.mk 7 "") "my-project" "abc123" ++
            [Event.SetServiceAccountIAMPolicy (Agent.mk 7 "my-project") 5,
             Event.CreateServiceAccountKey (Agent.mk 7 "my-project") 5])) :=
  ⟨rfl, rfl, rfl, rfl⟩

/-- C1, as stated, fails: the only action of the only candidate has a kind
outside the fixed set. `Kubeconfig` returns no error; it skips the action and
finalizes the cluster with an empty Resolved Action Set. -/
theorem unrecognized_kind_counterexample :
    Kubeconfig (demo [azureCandidate]).world "kubeconfig" ["ctx"] "http://localhost" 1
        (start []) =
      (.ok (),
        St.mk []
          (openingCalls ++
            [Event.CreateProjectServiceAccount 1 3 [],
             Event.Print "created service account for cluster remote with id 103\n"])) :=
  rfl

/-- C1, amended: an action whose kind is outside the fixed set is skipped by
`Kubeconfig`: the switch runs no case for it, so it makes no call, adds no
Resolved Action and returns no error, and the whole run is the run on the
analysis answer without such actions. -/
theorem unrecognized_kind_is_skipped (W : World σ) (kubeconfigPath : String)
    (contexts : List String) (host : String) (projectID : Nat) (s s1 : St σ)
    (saCandidate : ServiceAccountCandidate) (tag filename : String)
    (resolvers : List ServiceAccountAllActions) :
    switchAction W saCandidate (ServiceAccountAction.mk (.other tag) filename) resolvers s1 =
      (.ok resolvers, s1) ∧
    Kubeconfig W kubeconfigPath contexts host projectID s =
      Kubeconfig (W.mapCandidates (List.map dropUnrecognized)) kubeconfigPath contexts host
        projectID s :=
  ⟨rfl, (Kubeconfig_dropUnrecognized W kubeconfigPath contexts host projectID s).symm⟩

/-- C7: the k-th candidate is reached after the candidates before it have been
finalized, and in its action list a file-backed action is reached whose file
cannot be read. Then the resolver of that action returns the error of the read
and no Resolved Action, `Kubeconfig` returns that same error, the failed read
is the last call of the run, and the finalize calls of the run are exactly one
for each of the candidates 1 to k-1, in order: none for the k-th candidate or a
later one, and nothing is undone. -/
theorem read_failure_aborts_pass (W : World σ) (kubeconfigPath : String)
    (contexts : List String) (host : String) (projectID : Nat) (s : St σ)
    (rawBytes : Bytes) (client : Nat) (w1 w2 w3 wf : σ)
    (earlier later : List ServiceAccountCandidate) (saCandidate : ServiceAccountCandidate)
    (before after : List ServiceAccountAction) (action : ServiceAccountAction)
    (resolved : List ServiceAccountAllActions) (sk sa : St σ) (err : CollabError)
    (hpid : projectID ≠ 0)
    (hkube : W.GetKubeconfigFromHost s.world kubeconfigPath contexts = (.ok rawBytes, w1))
    (hclient : W.NewClient w1 (host ++ "/api") "cookie.json" = (client, w2))
    (hcands : W.CreateProjectCandidates w2 client projectID (goString rawBytes) =
      (.ok (earlier ++ saCandidate :: later), w3))
    (hearlier : rangeCandidates W client projectID earlier
      (St.mk w3 (s.trace ++ [Event.GetKubeconfigFromHost kubeconfigPath contexts,
        Event.NewClient (host ++ "/api") "cookie.json",
        Event.CreateProjectCandidates projectID (goString rawBytes)])) = (.ok (), sk))
    (hactions : saCandidate.Actions = before ++ action :: after)
    (hbefore : rangeActions W saCandidate before [] sk = (.ok resolved, sa))
    (hfile : action.Name.isFileBacked = true)
    (hread : W.ReadFile sa.world action.Filename = (.error err, wf)) :
    (∃ resolve, resolverOf W saCandidate action = some resolve ∧
      resolve sa =
        (.error (.collab err), St.mk wf (sa.trace ++ [Event.ReadFile action.Filename]))) ∧
    Kubeconfig W kubeconfigPath contexts host projectID s =
      (.error (.collab err), St.mk wf (sa.trace ++ [Event.ReadFile action.Filename])) ∧
    ∃ calls,
      finalizeCalls (sa.trace ++ [Event.ReadFile action.Filename]) =
        finalizeCalls s.trace ++ calls ∧
      calls.map (fun call => (call.1, call.2.1)) =
        earlier.map (fun c => (projectID, c.ID)) := by
  refine ⟨resolverOf_read_error W saCandidate action sa err wf hfile hread, ?_, ?_⟩
  · rw [Kubeconfig_eq_rangeCandidates W kubeconfigPath contexts host projectID s rawBytes
      client w1 w2 w3 _ hpid hkube hclient hcands,
      rangeCandidates_append W client projectID earlier _ _ _ hearlier]
    simp only [rangeCandidates]
    rw [hactions, rangeActions_append W saCandidate before _ _ _ _ _ hbefore]
    simp only [rangeActions]
    rw [switchAction_read_error W saCandidate action resolved sa err wf hfile hread]
  · obtain ⟨calls, hcalls, hids⟩ :=
      rangeCandidates_ok_finalizeCalls W client projectID earlier _ _ hearlier
    have hacts := rangeActions_finalizeCalls W saCandidate before [] sk
    rw [hbefore] at hacts
    simp only [] at hacts
    refine ⟨calls, ?_, hids⟩
    rw [finalizeCalls_append, hacts, hcalls]
    simp [finalizeCalls_append, finalizeCalls]

/-- C7 at a concrete input: of two candidates the first has readable files and
is finalized; the only action of the second is a client key in a missing file.
The pass ends with the error of the read after the single finalize call of the
first candidate. -/
theorem read_failure_aborts_pass_witness :
    Kubeconfig (demo [fileCandidate, missingKeyCandidate]).world "kubeconfig" ["ctx"]
        "http://localhost" 1 (start []) =
      (.error (.collab enoent),
        St.mk [] ((openingCalls ++ fileCandidateCalls) ++ [Event.ReadFile "missing.key"])) ∧
    ∃ calls,
      finalizeCalls ((openingCalls ++ fileCandidateCalls) ++ [Event.ReadFile "missing.key"]) =
        finalizeCalls [] ++ calls ∧
      calls.map (fun call => (call.1, call.2.1)) = [(1, 4)] :=
  (read_failure_aborts_pass (demo [fileCandidate, missingKeyCandidate]).world "kubeconfig"
    ["ctx"] "http://localhost" 1 (start []) [97] 1 [] [] [] [] [fileCandidate] []
    missingKeyCandidate [] [] (ServiceAccountAction.mk .ClientKeyDataAction "missing.key") []
    (St.mk [] (openingCalls ++ fileCandidateCalls))
    (St.mk [] (openingCalls ++ fileCandidateCalls)) enoent
    (by decide) rfl rfl rfl rfl rfl rfl rfl rfl).2

/-- C8: the analysis returns candidates whose actions all have kinds in the
fixed set, and every resolution and every finalize call of the pass succeeds
(the pass that the specification describes has a value). Then `Kubeconfig`
returns success, and the finalize calls of the run are exactly one for each
candidate, in the order of the list; each carries the given project, the
identifier of its candidate, and the resolutions of the actions of that
candidate alone, in their order, `AWSKeyData` actions contributing nothing: one
Resolved Action for each other action, of the same kind, so that the length of
the set is the number of actions that are not `AWSKeyData`. -/
theorem successful_pass_finalizes_each (W : World σ) (kubeconfigPath : String)
    (contexts : List String) (host : String) (projectID : Nat) (s sfin : St σ)
    (rawBytes : Bytes) (client : Nat) (w1 w2 w3 : σ)
    (saCandidates : List ServiceAccountCandidate)
    (calls : List (Nat × Nat × List ServiceAccountAllActions))
    (hpid : projectID ≠ 0)
    (hkube : W.GetKubeconfigFromHost s.world kubeconfigPath contexts = (.ok rawBytes, w1))
    (hclient : W.NewClient w1 (host ++ "/api") "cookie.json" = (client, w2))
    (hcands : W.CreateProjectCandidates w2 client projectID (goString rawBytes) =
      (.ok saCandidates, w3))
    (hkinds : ∀ c ∈ saCandidates, ∀ a ∈ c.Actions, a.Name.inFixedSet = true)
    (hpass : successfulPass W client projectID saCandidates
      (St.mk w3 (s.trace ++ [Event.GetKubeconfigFromHost kubeconfigPath contexts,
        Event.NewClient (host ++ "/api") "cookie.json",
        Event.CreateProjectCandidates projectID (goString rawBytes)])) =
      some (calls, sfin)) :
    Kubeconfig W kubeconfigPath contexts host projectID s = (.ok (), sfin) ∧
    finalizeCalls sfin.trace = finalizeCalls s.trace ++ calls ∧
    List.Forall₂
      (fun c call => FinalizesCandidate projectID c call ∧
        ∃ sb se, resolutions W c c.Actions sb = some (call.2.2, se))
      saCandidates calls := by
  obtain ⟨hrun, htrace, hshape⟩ :=
    successfulPass_rangeCandidates W client projectID saCandidates _ _ _ hpass
  refine ⟨?_, ?_, hshape hkinds⟩
  · rw [Kubeconfig_eq_rangeCandidates W kubeconfigPath contexts host projectID s rawBytes
      client w1 w2 w3 _ hpid hkube hclient hcands, hrun]
  · rw [htrace]
    simp [finalizeCalls_append, finalizeCalls]

/-- C8 at a concrete input: two candidates, the first with a CA file, an
`AWSKeyData` action and a token file, the second with a GCP key that the agent
provisions. `Kubeconfig` succeeds with two finalize calls: the first carries
the two file resolutions in their order, the second the GCP key alone. -/
theorem successful_pass_finalizes_each_witness :
    Kubeconfig (demo [fileCandidate, gcpCandidate]).world "kubeconfig" ["ctx"]
        "http://localhost" 1 (start [.ok "y"]) =
      (.ok (), St.mk [] (openingCalls ++ fileCandidateCalls ++ gcpCandidateCalls)) ∧
    finalizeCalls (openingCalls ++ fileCandidateCalls ++ gcpCandidateCalls) =
      finalizeCalls [] ++
        [(1, 4, [{ Name := .ClusterCADataAction, ClusterCAData := "TWFu" },
                 { Name := .TokenDataAction, TokenData := "hi" }]),
         (1, 6, [{ Name := .GCPKeyDataAction, GCPKeyData := "sa" }])] :=
  have h := successful_pass_finalizes_each (demo [fileCandidate, gcpCandidate]).world
    "kubeconfig" ["ctx"] "http://localhost" 1 (start [.ok "y"])
    (St.mk [] (openingCalls ++ fileCandidateCalls ++ gcpCandidateCalls)) [97] 1
    [.ok "y"] [.ok "y"] [.ok "y"] [fileCandidate, gcpCandidate]
    [(1, 4, [{ Name := .ClusterCADataAction, ClusterCAData := "TWFu" },
             { Name := .TokenDataAction, TokenData := "hi" }]),
     (1, 6, [{ Name := .GCPKeyDataAction, GCPKeyData := "sa" }])]
    (by decide) rfl rfl rfl (by decide) rfl
  ⟨h.1, h.2.1⟩

end Connect
